import Mathlib

/-!
# SecurityNexus monitoring engine: a shallow embedding in Lean 4

This file embeds the detection core of the `monitoring-engine` Rust package
(attack-pattern detectors, connection retry policy, alert management and the
engine's per-transaction processing path) as executable Lean definitions, and
proves the testable properties stated in the specification against them.

Modelling conventions:
* Rust `f64` confidence arithmetic is modelled over `ℚ`.  Every constant in
  the source is a short decimal, every operation is addition, `min` and
  comparison, so the rational semantics agrees with the floating-point one
  on all reachable values.
* The `u64::from_be_bytes` conversion and the `> 1.5` ratio comparison are
  modelled exactly by cross-multiplication (`2*new > 3*old`), which also
  captures the `+inf` result of dividing a positive float by zero.
* Rust `HashMap<usize, _>` with overwriting `insert` and point `get` is
  modelled as an association list where insertion conses in front and lookup
  returns the first (treating the newest binding as the visible one).
* Byte strings (`Vec<u8>`) are `List Nat`, with `% 256` applied where the
  source reads a byte, mirroring the `u8` value range.
-/

namespace SecurityNexus

/-- Contiguous-sublist test on character lists: `pat` occurs somewhere in the
list.  Mirrors Rust `str::contains` for plain (non-empty-pattern aware)
substring search. -/
def listContainsSub (pat : List Char) : List Char → Bool
  | [] => pat.isEmpty
  | c :: rest => pat.isPrefixOf (c :: rest) || listContainsSub pat rest

/-- Rust `str::contains(pat)` on strings. -/
def strContains (s pat : String) : Bool :=
  listContainsSub pat.data s.data

/-- ASCII lower-casing of one character (the detector keywords are ASCII, so
this matches Rust `to_lowercase` on every name compared). -/
def charLower (c : Char) : Char :=
  if 65 ≤ c.toNat ∧ c.toNat ≤ 90 then Char.ofNat (c.toNat + 32) else c

/-- Rust `str::to_lowercase()` (ASCII-adequate for the keyword matching the
detectors perform). -/
def strLower (s : String) : String :=
  ⟨s.data.map charLower⟩

/-- Rust `u64::from_be_bytes` applied to the last (at most) 8 bytes of a byte
string, zero-padded on the left when shorter — the exact behaviour of
`FlashLoanDetector::bytes_to_u64` in
`src/packages/monitoring-engine/src/detectors/flash_loan.rs`. -/
def bytes_to_u64 (bytes : List Nat) : Nat :=
  (bytes.drop (bytes.length - 8)).foldl (fun acc b => acc * 256 + b % 256) 0

end SecurityNexus

namespace SecurityNexus

/-- `AttackPattern` as declared in
`src/packages/monitoring-engine/src/types.rs` (lines 30–51): the enumeration
actually present in the snapshot's `types.rs` has exactly these ten
variants. -/
inductive AttackPatternDecl where
  | FlashLoan
  | Mev
  | FrontRunning
  | Sandwich
  | OracleManipulation
  | GovernanceAttack
  | Reentrancy
  | VolumeAnomaly
  | SuspiciousApproval
  | Unknown
  deriving DecidableEq, Repr, Fintype

/-- Modelled from the spec: the attack-pattern enumeration used by the
detector implementations (`hyperbridge.rs`, `hydration.rs` construct
`CrossChainBridge`, `StateProofManipulation`, `OmnipoolManipulation`,
`LiquidityDrain` and `CollateralManipulation`, which the `types.rs` present
under `src/` does not declare — the types module those files compile against
is missing from the snapshot).  The spec lists exactly these fifteen
variants. -/
inductive AttackPattern where
  | FlashLoan
  | Mev
  | FrontRunning
  | Sandwich
  | OracleManipulation
  | GovernanceAttack
  | Reentrancy
  | VolumeAnomaly
  | SuspiciousApproval
  | CrossChainBridge
  | StateProofManipulation
  | OmnipoolManipulation
  | LiquidityDrain
  | CollateralManipulation
  | Unknown
  deriving DecidableEq, Repr, Fintype

/-- `AlertSeverity` from `types.rs`: `Low`, `Medium`, `High`, `Critical`,
with `derive(PartialOrd, Ord)` giving declaration order. -/
inductive AlertSeverity where
  | Low
  | Medium
  | High
  | Critical
  deriving DecidableEq, Repr, Fintype

/-- Declaration index of a severity; Rust's derived `Ord` compares by it. -/
def AlertSeverity.rank : AlertSeverity → Nat
  | .Low => 0
  | .Medium => 1
  | .High => 2
  | .Critical => 3

/-- The derived strict order `<` on `AlertSeverity`. -/
def AlertSeverity.sevLt (a b : AlertSeverity) : Prop :=
  a.rank < b.rank

instance : DecidablePred fun p : AlertSeverity × AlertSeverity => p.1.sevLt p.2 :=
  fun p => Nat.decLt p.1.rank p.2.rank

instance (a b : AlertSeverity) : Decidable (a.sevLt b) :=
  Nat.decLt a.rank b.rank

/-- The JSON payload fields the detectors read from an event's `event_data`
(`.get("commitment")`/`.get("dest")` in `hyperbridge.rs`, the price/
liquidity/health fields in `hydration.rs`, the proof fields in the
state-proof detector).  Modelled from the spec: the `ChainEvent` shape
carrying optional structured data, from the types module missing from the
snapshot.  JSON numbers are ℚ; `proof_present` stands for
`data.get("proof").is_some()`. -/
structure EventData where
  commitment : Option String := none
  dest : Option String := none
  price_impact : Option ℚ := none
  oracle_deviation : Option ℚ := none
  amount : Option ℚ := none
  remaining_liquidity : Option ℚ := none
  suspicious_timing : Option Bool := none
  cascade_risk : Option Bool := none
  health_factor_before : Option ℚ := none
  health_factor_after : Option ℚ := none
  invalid : Option Bool := none
  height : Option Nat := none
  proof_present : Bool := false
  deriving DecidableEq, Repr

/-- `ChainEvent`: the fields the detectors in scope read.  The remaining
fields of the source struct (block number, event index, raw data bytes,
topics) are not consulted by any claim and are omitted. -/
structure ChainEvent where
  pallet : String
  event_name : String
  event_data : Option EventData := none
  deriving DecidableEq, Repr

/-- `ParsedTransaction` from the spec's data model (§3), matching every field
the detectors and the engine read. -/
structure ParsedTransaction where
  hash : String
  block_number : Nat
  block_hash : String
  index : Nat
  caller : String
  pallet : String
  call : String
  args : List Nat := []
  signature : Option (List Nat) := none
  nonce : Option Nat := none
  timestamp : Nat := 0
  success : Bool := true
  deriving DecidableEq, Repr

/-- `StateChange`: storage key plus optional old/new byte values.  The key is
modelled as the decoded UTF-8 string, which is what
`CrossChainBridgeDetector::detect_high_value_transfer` inspects. -/
structure StateChange where
  key : String := ""
  old_value : Option (List Nat)
  new_value : Option (List Nat)
  deriving DecidableEq, Repr

/-- `TransactionContext`: one transaction with its events and state
changes. -/
structure TransactionContext where
  transaction : ParsedTransaction
  events : List ChainEvent
  state_changes : List StateChange
  deriving DecidableEq, Repr

/-- `DetectionResult` from the spec's data model (§3). -/
structure DetectionResult where
  detected : Bool
  confidence : ℚ
  pattern : AttackPattern
  description : String
  evidence : List String
  deriving DecidableEq, Repr

/-- `DetectionResult::no_detection()`: the canonical zero value. -/
def DetectionResult.no_detection : DetectionResult :=
  { detected := false
    confidence := 0
    pattern := .Unknown
    description := "No suspicious pattern detected"
    evidence := [] }

/-- `DetectionResult::detected(pattern, confidence, description, evidence)`
(renamed `found` because the structure already has a `detected` field). -/
def DetectionResult.found (pattern : AttackPattern) (confidence : ℚ)
    (description : String) (evidence : List String) : DetectionResult :=
  { detected := true
    confidence := confidence
    pattern := pattern
    description := description
    evidence := evidence }

/-- Modelled from the spec: `DetectionResult::safe()` used by the bridge
detectors, from the types module missing from the snapshot; per the spec the
canonical non-detection value (detected = false, confidence = 0, pattern
`Unknown`). -/
def DetectionResult.safe : DetectionResult :=
  DetectionResult.no_detection

end SecurityNexus

namespace SecurityNexus

/-! ## FlashLoanDetector
(`src/packages/monitoring-engine/src/detectors/flash_loan.rs`) -/

namespace FlashLoanDetector

/-- The `FlashLoanIndicators` struct. -/
structure FlashLoanIndicators where
  has_borrow : Bool
  has_repay : Bool
  dex_interaction_count : Nat
  lending_protocol_interactions : Nat
  large_balance_changes : Nat
  deriving DecidableEq, Repr

/-- One state-change pair counts as a "large balance change" when both values
are present, of equal nonzero byte length, the old numeric value is positive
and the ratio between new and old (in either direction) exceeds 1.5 — the
body of the loop in `count_large_balance_changes`, with the float division
against 1.5 rendered as exact cross-multiplication. -/
def isLargeBalanceChange (change : StateChange) : Bool :=
  match change.old_value, change.new_value with
  | some old_val, some new_val =>
    if old_val.length = new_val.length ∧ old_val ≠ [] then
      let old_num := bytes_to_u64 old_val
      let new_num := bytes_to_u64 new_val
      if old_num > 0 then
        if new_num > old_num then
          decide (2 * new_num > 3 * old_num)
        else
          decide (2 * old_num > 3 * new_num)
      else false
    else false
  | _, _ => false

/-- `count_large_balance_changes`. -/
def count_large_balance_changes (state_changes : List StateChange) : Nat :=
  state_changes.countP (fun c => isLargeBalanceChange c)

/-- Per-event update of the scalar indicators in `analyze_events`:
each `if` of the Rust loop body, in order. -/
def eventStep (acc : Bool × Bool × Nat × Nat) (event : ChainEvent) :
    Bool × Bool × Nat × Nat :=
  let event_name_lower := strLower event.event_name
  let pallet_lower := strLower event.pallet
  let (has_borrow, has_repay, dex_count, lending) := acc
  let has_borrow := has_borrow || strContains event_name_lower "borrow"
  let lending := if strContains event_name_lower "borrow" then lending + 1 else lending
  let has_repay := has_repay ||
    (strContains event_name_lower "repay" || strContains event_name_lower "repaid")
  let lending :=
    if strContains event_name_lower "repay" || strContains event_name_lower "repaid"
    then lending + 1 else lending
  let dex_count :=
    if strContains pallet_lower "dex" || strContains event_name_lower "swap" ||
        strContains event_name_lower "trade"
    then dex_count + 1 else dex_count
  let lending :=
    if strContains pallet_lower "lending" || strContains pallet_lower "loan"
    then lending + 1 else lending
  (has_borrow, has_repay, dex_count, lending)

/-- `FlashLoanDetector::analyze_events`. -/
def analyze_events (ctx : TransactionContext) : FlashLoanIndicators :=
  let (has_borrow, has_repay, dex_count, lending) :=
    ctx.events.foldl eventStep (false, false, 0, 0)
  { has_borrow := has_borrow
    has_repay := has_repay
    dex_interaction_count := dex_count
    lending_protocol_interactions := lending
    large_balance_changes := count_large_balance_changes ctx.state_changes }

/-- `FlashLoanDetector::calculate_confidence`. -/
def calculate_confidence (indicators : FlashLoanIndicators) : ℚ :=
  let confidence : ℚ :=
    if indicators.has_borrow && indicators.has_repay then
      (1/2 : ℚ)
      + (if indicators.dex_interaction_count ≥ 2 then
          (15/100 : ℚ) * min (indicators.dex_interaction_count : ℚ) 4 / 2
         else 0)
      + (if indicators.large_balance_changes > 0 then (2/10 : ℚ) else 0)
      + (if indicators.lending_protocol_interactions > 2 then (1/10 : ℚ) else 0)
    else if indicators.has_borrow then (2/10 : ℚ)
    else 0
  min confidence 1

/-- `FlashLoanDetector::build_evidence`. -/
def build_evidence (indicators : FlashLoanIndicators) : List String :=
  (if indicators.has_borrow then
    ["Detected borrow event from lending protocol"] else [])
  ++ (if indicators.has_repay then
    ["Detected repayment event in same transaction"] else [])
  ++ (if indicators.dex_interaction_count > 0 then
    ["Multiple DeFi protocol interactions: "
      ++ toString indicators.dex_interaction_count ++ " swap/trade events"] else [])
  ++ (if indicators.large_balance_changes > 0 then
    ["Large balance changes detected: "
      ++ toString indicators.large_balance_changes ++ " changes >50%"] else [])
  ++ (if indicators.lending_protocol_interactions > 2 then
    ["Complex lending protocol usage: "
      ++ toString indicators.lending_protocol_interactions ++ " interactions"] else [])
  ++ (if indicators.has_borrow && indicators.has_repay &&
        decide (indicators.dex_interaction_count ≥ 2) then
    ["Classic flash loan pattern: borrow, manipulate, repay"] else [])

/-- The description string built inside `analyze_transaction`. -/
def flashDescription (indicators : FlashLoanIndicators) : String :=
  if indicators.has_borrow && indicators.has_repay then
    "Potential flash loan attack: borrow + "
      ++ toString indicators.dex_interaction_count
      ++ " DeFi interactions + repay in single transaction"
  else
    "Suspicious lending activity: "
      ++ toString indicators.lending_protocol_interactions
      ++ " protocol interactions detected"

/-- `FlashLoanDetector::analyze_transaction`. -/
def analyze_transaction (ctx : TransactionContext) : DetectionResult :=
  if calculate_confidence (analyze_events ctx) ≥ 3/10 then
    DetectionResult.found .FlashLoan (calculate_confidence (analyze_events ctx))
      (flashDescription (analyze_events ctx))
      (build_evidence (analyze_events ctx))
  else
    DetectionResult.no_detection

end FlashLoanDetector

/-! ### Spec-side reading of the flash-loan indicators (claim C1)

The claim describes the confidence in terms of event scans; these definitions
follow the claim's wording and are proved to coincide with the detector's
accumulating loop. -/

/-- A borrow-like event: lowercased name contains `"borrow"`. -/
def isBorrowEvent (e : ChainEvent) : Bool :=
  strContains (strLower e.event_name) "borrow"

/-- A repay-like event: lowercased name contains `"repay"` or `"repaid"`. -/
def isRepayEvent (e : ChainEvent) : Bool :=
  strContains (strLower e.event_name) "repay" ||
    strContains (strLower e.event_name) "repaid"

/-- A DEX-like interaction: pallet contains `"dex"` or name contains
`"swap"`/`"trade"`. -/
def isDexEvent (e : ChainEvent) : Bool :=
  strContains (strLower e.pallet) "dex" ||
    strContains (strLower e.event_name) "swap" ||
    strContains (strLower e.event_name) "trade"

/-- A lending-protocol pallet: pallet contains `"lending"` or `"loan"`. -/
def isLendingPallet (e : ChainEvent) : Bool :=
  strContains (strLower e.pallet) "lending" ||
    strContains (strLower e.pallet) "loan"

/-- How many lending-protocol interactions one event contributes in the
detector's scan (a borrow-like, repay-like and lending-pallet event each
contribute one, cumulatively). -/
def lendWeight (e : ChainEvent) : Nat :=
  (if isBorrowEvent e then 1 else 0) + (if isRepayEvent e then 1 else 0) +
    (if isLendingPallet e then 1 else 0)

/-- The accumulating event loop of `analyze_events` computes exactly the
spec-side scans. -/
theorem FlashLoanDetector.foldl_eventStep (evs : List ChainEvent)
    (b r : Bool) (d l : Nat) :
    evs.foldl FlashLoanDetector.eventStep (b, r, d, l) =
      (b || evs.any isBorrowEvent,
       r || evs.any isRepayEvent,
       d + evs.countP (fun e => isDexEvent e),
       l + (evs.map lendWeight).sum) := by
  induction evs generalizing b r d l with
  | nil => simp
  | cons e rest ih =>
    simp only [List.foldl_cons, FlashLoanDetector.eventStep, ih, List.any_cons,
      List.countP_cons, List.map_cons, List.sum_cons,
      isBorrowEvent, isRepayEvent, isDexEvent, lendWeight, isLendingPallet]
    refine Prod.ext ?_ (Prod.ext ?_ (Prod.ext ?_ ?_)) <;>
      simp only [Bool.or_assoc, decide_eq_true_eq] <;> split_ifs <;> simp_all <;> omega

/-- `analyze_events` in terms of the spec-side scans. -/
theorem FlashLoanDetector.flash_analyze_events_eq (ctx : TransactionContext) :
    FlashLoanDetector.analyze_events ctx =
      { has_borrow := ctx.events.any isBorrowEvent
        has_repay := ctx.events.any isRepayEvent
        dex_interaction_count := ctx.events.countP (fun e => isDexEvent e)
        lending_protocol_interactions := (ctx.events.map lendWeight).sum
        large_balance_changes :=
          FlashLoanDetector.count_large_balance_changes ctx.state_changes } := by
  unfold FlashLoanDetector.analyze_events
  rw [FlashLoanDetector.foldl_eventStep]
  simp

/-- The flash-loan confidence exactly as claim C1 words it: base 0.5 plus
`0.15 * min(dex_count, 4) / 2` for DEX-like interactions (with no further
condition on `dex_count`), plus 0.2 for a large balance change, plus 0.1 for
more than 2 lending-protocol interactions, capped at 1; 0.2 for borrow
without repay; 0 with no borrow. -/
def claimFlashConfidenceLiteral (ctx : TransactionContext) : ℚ :=
  if ¬ctx.events.any isBorrowEvent then 0
  else if ¬ctx.events.any isRepayEvent then 2/10
  else
    min ((1/2 : ℚ)
      + (15/100 : ℚ) * min ((ctx.events.countP fun e => isDexEvent e : Nat) : ℚ) 4 / 2
      + (if FlashLoanDetector.count_large_balance_changes ctx.state_changes > 0
          then (2/10 : ℚ) else 0)
      + (if (ctx.events.map lendWeight).sum > 2 then (1/10 : ℚ) else 0)) 1

/-- Claim C1 amended: the DEX bonus `0.15 * min(dex_count, 4) / 2` is added
only when `dex_count ≥ 2`. -/
def claimFlashConfidence (ctx : TransactionContext) : ℚ :=
  if ¬ctx.events.any isBorrowEvent then 0
  else if ¬ctx.events.any isRepayEvent then 2/10
  else
    min ((1/2 : ℚ)
      + (if (ctx.events.countP fun e => isDexEvent e) ≥ 2 then
          (15/100 : ℚ) * min ((ctx.events.countP fun e => isDexEvent e : Nat) : ℚ) 4 / 2
         else 0)
      + (if FlashLoanDetector.count_large_balance_changes ctx.state_changes > 0
          then (2/10 : ℚ) else 0)
      + (if (ctx.events.map lendWeight).sum > 2 then (1/10 : ℚ) else 0)) 1

/-- The detector's confidence computation agrees with the amended claim
formula on every context. -/
theorem flash_confidence_eq (ctx : TransactionContext) :
    FlashLoanDetector.calculate_confidence (FlashLoanDetector.analyze_events ctx) =
      claimFlashConfidence ctx := by
  rw [FlashLoanDetector.flash_analyze_events_eq]
  unfold FlashLoanDetector.calculate_confidence claimFlashConfidence
  cases hb : ctx.events.any isBorrowEvent <;>
    cases hr : ctx.events.any isRepayEvent <;>
      (simp; try norm_num)

/-- A transaction with a borrow event, a repay event and exactly one DEX-like
event: the code scores it 0.5, the claim's literal formula 0.575. -/
def ctxFlashCex : TransactionContext :=
  { transaction :=
      { hash := "0xc1", block_number := 1, block_hash := "0xb", index := 0,
        caller := "A", pallet := "Pool", call := "run" }
    events :=
      [ { pallet := "Pool", event_name := "Borrowed" },
        { pallet := "Pool", event_name := "Repaid" },
        { pallet := "Pool", event_name := "SwapExecuted" } ]
    state_changes := [] }

/-- A context on which the flash-loan detector reports: borrow and repay
events plus two DEX swaps. -/
def ctxFlashW : TransactionContext :=
  { transaction :=
      { hash := "0xw1", block_number := 2, block_hash := "0xb", index := 0,
        caller := "A", pallet := "Lending", call := "borrow_flash" }
    events :=
      [ { pallet := "Lending", event_name := "Borrowed" },
        { pallet := "DEX", event_name := "Swap" },
        { pallet := "DEX", event_name := "Swap" },
        { pallet := "Lending", event_name := "Repaid" } ]
    state_changes := [] }

/-- C1, counterexample: on `ctxFlashCex` (borrow + repay + a single DEX
event) the detector computes confidence 0.5, while the claim's formula
`0.5 + 0.15 * min(dex_count, 4) / 2` yields 0.575 — the DEX bonus in the code
is conditional on at least two DEX-like interactions, which the claim
omits. -/
theorem flash_loan_claim_literal_cex :
    FlashLoanDetector.calculate_confidence
        (FlashLoanDetector.analyze_events ctxFlashCex) = 1/2 ∧
      claimFlashConfidenceLiteral ctxFlashCex = 23/40 ∧
      FlashLoanDetector.calculate_confidence
        (FlashLoanDetector.analyze_events ctxFlashCex) ≠
        claimFlashConfidenceLiteral ctxFlashCex := by
  have he : FlashLoanDetector.analyze_events ctxFlashCex =
      { has_borrow := true, has_repay := true, dex_interaction_count := 1,
        lending_protocol_interactions := 2, large_balance_changes := 0 } := by
    decide
  have h1 : FlashLoanDetector.calculate_confidence
      (FlashLoanDetector.analyze_events ctxFlashCex) = 1/2 := by
    rw [he]; norm_num [FlashLoanDetector.calculate_confidence]
  have hb : ctxFlashCex.events.any isBorrowEvent = true := by decide
  have hr : ctxFlashCex.events.any isRepayEvent = true := by decide
  have hd : (ctxFlashCex.events.countP fun e => isDexEvent e) = 1 := by decide
  have hl : (ctxFlashCex.events.map lendWeight).sum = 2 := by decide
  have hc : FlashLoanDetector.count_large_balance_changes
      ctxFlashCex.state_changes = 0 := by decide
  have h2 : claimFlashConfidenceLiteral ctxFlashCex = 23/40 := by
    unfold claimFlashConfidenceLiteral
    rw [hb, hr, hd, hl, hc]
    norm_num
  exact ⟨h1, h2, by rw [h1, h2]; norm_num⟩

/-- C1 (amended): `FlashLoanDetector.analyze_transaction` computes its
internal confidence exactly as: 0 with no borrow-like event; 0.2 with borrow
but no repay; with both, 0.5 plus `0.15 * min(dex_count, 4) / 2` **when at
least two DEX-like interactions are present**, plus 0.2 for a large balance
change, plus 0.1 when lending interactions exceed 2, capped at 1.0 — and the
result is reported (detected, pattern `FlashLoan`, carrying that confidence)
iff the confidence is at least 0.3. -/
theorem flash_loan_confidence_spec (ctx : TransactionContext) :
    FlashLoanDetector.calculate_confidence (FlashLoanDetector.analyze_events ctx) =
        claimFlashConfidence ctx ∧
      ((FlashLoanDetector.analyze_transaction ctx).detected = true ↔
        claimFlashConfidence ctx ≥ 3/10) ∧
      ((FlashLoanDetector.analyze_transaction ctx).detected = true →
        (FlashLoanDetector.analyze_transaction ctx).pattern = .FlashLoan ∧
        (FlashLoanDetector.analyze_transaction ctx).confidence =
          claimFlashConfidence ctx) := by
  have h := flash_confidence_eq ctx
  refine ⟨h, ?_, ?_⟩ <;>
  · unfold FlashLoanDetector.analyze_transaction
    rw [h]
    split_ifs with hc <;>
      simp [DetectionResult.found, DetectionResult.no_detection, hc]

/-- Witness for C1: on a concrete borrow–swap–swap–repay context the detector
reports pattern `FlashLoan` with the claimed confidence. -/
theorem flash_loan_confidence_spec_witness :
    (FlashLoanDetector.analyze_transaction ctxFlashW).pattern = .FlashLoan ∧
      (FlashLoanDetector.analyze_transaction ctxFlashW).confidence =
        claimFlashConfidence ctxFlashW := by
  have he : FlashLoanDetector.analyze_events ctxFlashW =
      { has_borrow := true, has_repay := true, dex_interaction_count := 2,
        lending_protocol_interactions := 4, large_balance_changes := 0 } := by
    decide
  refine (flash_loan_confidence_spec ctxFlashW).2.2 ?_
  unfold FlashLoanDetector.analyze_transaction
  rw [he]
  norm_num [FlashLoanDetector.calculate_confidence, DetectionResult.found]

/-! ## MevDetector
(`src/packages/monitoring-engine/src/detectors/mev.rs`) -/

namespace MevDetector

/-- The `MevIndicators` struct. -/
structure MevIndicators where
  is_sandwich : Bool
  is_frontrunning : Bool
  is_backrunning : Bool
  confidence : ℚ
  evidence : List String
  deriving DecidableEq, Repr

/-- The `HashMap<usize, MevIndicators>` accumulated by the three passes,
modelled as an association list where the newest binding for a key is
visible. -/
abbrev MevMap := List (Nat × MevIndicators)

/-- `HashMap::insert` (overwrites any previous binding). -/
def mapInsert (m : MevMap) (k : Nat) (v : MevIndicators) : MevMap :=
  (k, v) :: m

/-- `HashMap::get`. -/
def mapLookup (k : Nat) : MevMap → Option MevIndicators
  | [] => none
  | (j, v) :: rest => if j = k then some v else mapLookup k rest

/-- `HashMap::contains_key`. -/
def mapContains (m : MevMap) (k : Nat) : Bool :=
  (mapLookup k m).isSome

/-- `MevDetector::is_dex_operation`. -/
def is_dex_operation (tx : ParsedTransaction) : Bool :=
  strContains (strLower tx.pallet) "dex" ||
    strContains (strLower tx.call) "swap" ||
    strContains (strLower tx.call) "trade" ||
    strContains (strLower tx.call) "exchange"

/-- `MevDetector::is_large_state_change`: equal-length nonempty byte values
differing in more than 25% of positions. -/
def is_large_state_change (sc : StateChange) : Bool :=
  match sc.old_value, sc.new_value with
  | some old_val, some new_val =>
    if old_val.length = new_val.length ∧ old_val ≠ [] then
      decide ((old_val.zip new_val).countP
        (fun p => !(p.1 % 256 = p.2 % 256 : Bool)) > old_val.length / 4)
    else false
  | _, _ => false

/-- The `sequential` test of `detect_sandwich_attacks`. -/
def sandwichSequential (b mid a : TransactionContext) : Bool :=
  (mid.transaction.index = b.transaction.index + 1 : Bool) &&
    (a.transaction.index = mid.transaction.index + 1 : Bool)

/-- The `close_indices` test of `detect_sandwich_attacks`. -/
def sandwichClose (b mid a : TransactionContext) : Bool :=
  (mid.transaction.index ≤ b.transaction.index + 3 : Bool) &&
    (a.transaction.index ≤ mid.transaction.index + 3 : Bool)

/-- The sequential-nonce bonus test of `detect_sandwich_attacks`. -/
def sandwichNonceSeq (b a : TransactionContext) : Bool :=
  match b.transaction.nonce, a.transaction.nonce with
  | some nonce1, some nonce2 => (nonce2 = nonce1 + 1 : Bool)
  | _, _ => false

/-- The guard of `detect_sandwich_attacks`: same outer caller, distinct
middle caller, sequential-or-close indices, all three DEX operations. -/
def sandwichFires (b mid a : TransactionContext) : Bool :=
  (b.transaction.caller = a.transaction.caller : Bool) &&
    !(mid.transaction.caller = b.transaction.caller : Bool) &&
    (sandwichSequential b mid a || sandwichClose b mid a) &&
    (is_dex_operation b.transaction && is_dex_operation mid.transaction &&
      is_dex_operation a.transaction)

/-- The shared confidence of one sandwich window: 0.7 base, +0.15 when
exactly sequential, +0.1 on the attacker nonce step, capped at 1. -/
def sandwichConf (b mid a : TransactionContext) : ℚ :=
  min ((7/10 : ℚ) + (if sandwichSequential b mid a then 15/100 else 0)
    + (if sandwichNonceSeq b a then 1/10 else 0)) 1

/-- The shared evidence of one sandwich window. -/
def sandwichEvidence (b mid a : TransactionContext) : List String :=
  ["Same caller (" ++ b.transaction.caller ++ ") surrounds different caller ("
    ++ mid.transaction.caller ++ ")"]
  ++ (if sandwichSequential b mid a then
      ["Transactions are sequential in block"] else [])
  ++ (if sandwichNonceSeq b a then ["Sequential nonces from attacker"] else [])
  ++ ["Classic sandwich attack pattern detected"]

/-- The `MevIndicators` value inserted for all three indices of a firing
sandwich window. -/
def sandwichIndicators (b mid a : TransactionContext) : MevIndicators :=
  { is_sandwich := true
    is_frontrunning := false
    is_backrunning := false
    confidence := sandwichConf b mid a
    evidence := sandwichEvidence b mid a }

/-- The sandwich-window computation at index `i`: the three contexts when in
range, and the inserted indicators when the guard fires. -/
def windowFires (ctxs : List TransactionContext) (i : Nat) :
    Option MevIndicators :=
  match ctxs.get? i, ctxs.get? (i+1), ctxs.get? (i+2) with
  | some b, some mid, some a =>
    if sandwichFires b mid a then some (sandwichIndicators b mid a) else none
  | _, _, _ => none

/-- One iteration of the `detect_sandwich_attacks` loop. -/
def sandwichStep (ctxs : List TransactionContext) (m : MevMap) (i : Nat) :
    MevMap :=
  match windowFires ctxs i with
  | some v => mapInsert (mapInsert (mapInsert m i v) (i+1) v) (i+2) v
  | none => m

/-- `MevDetector::detect_sandwich_attacks` (the loop breaks as soon as
`i + 2 ≥ len`, i.e. runs for `i < len - 2`). -/
def detect_sandwich_attacks (ctxs : List TransactionContext) (m : MevMap) :
    MevMap :=
  (List.range (ctxs.length - 2)).foldl (sandwichStep ctxs) m

/-- The guard of `detect_frontrunning`: same pallet+call, different callers,
index gap at most 2. -/
def frontFires (current next : TransactionContext) : Bool :=
  (current.transaction.call = next.transaction.call : Bool) &&
    (current.transaction.pallet = next.transaction.pallet : Bool) &&
    !(current.transaction.caller = next.transaction.caller : Bool) &&
    (next.transaction.index ≤ current.transaction.index + 2 : Bool)

/-- The confidence of one front-running pair: 0.5 base, +0.25 when the victim
failed after the front-runner succeeded, +0.1 when exactly adjacent. -/
def frontConf (current next : TransactionContext) : ℚ :=
  min ((1/2 : ℚ)
    + (if !next.transaction.success && current.transaction.success
        then 25/100 else 0)
    + (if next.transaction.index = current.transaction.index + 1
        then (1/10 : ℚ) else 0)) 1

/-- The `MevIndicators` value inserted at the first index of a firing
front-running pair. -/
def frontIndicators (current next : TransactionContext) : MevIndicators :=
  { is_sandwich := false
    is_frontrunning := true
    is_backrunning := false
    confidence := frontConf current next
    evidence :=
      ["Same function call (" ++ current.transaction.pallet ++ "."
        ++ current.transaction.call ++ ") executed by different callers"]
      ++ (if !next.transaction.success && current.transaction.success then
          ["Victim transaction failed after frontrunner succeeded"] else [])
      ++ (if next.transaction.index = current.transaction.index + 1 then
          ["Frontrunner executed immediately before victim"] else [])
      ++ ["Potential frontrunning pattern detected"] }

/-- One iteration of the `detect_frontrunning` loop: indices already present
in the map (claimed by the sandwich pass) are skipped. -/
def frontStep (ctxs : List TransactionContext) (m : MevMap) (i : Nat) :
    MevMap :=
  if mapContains m i then m
  else
    match ctxs.get? i, ctxs.get? (i+1) with
    | some current, some next =>
      if frontFires current next then mapInsert m i (frontIndicators current next)
      else m
    | _, _ => m

/-- `MevDetector::detect_frontrunning`. -/
def detect_frontrunning (ctxs : List TransactionContext) (m : MevMap) :
    MevMap :=
  (List.range (ctxs.length - 1)).foldl (frontStep ctxs) m

/-- The guard of `detect_backrunning`: the first context has a nonempty state
change list with a large change, the second is a DEX operation at the
immediately following index. -/
def backFires (current next : TransactionContext) : Bool :=
  (!current.state_changes.isEmpty &&
      current.state_changes.any is_large_state_change) &&
    is_dex_operation next.transaction &&
    (next.transaction.index = current.transaction.index + 1 : Bool)

/-- Whether the back-running pair starting at index `i` fires. -/
def backPairFires (ctxs : List TransactionContext) (i : Nat) : Bool :=
  match ctxs.get? i, ctxs.get? (i+1) with
  | some current, some next => backFires current next
  | _, _ => false

/-- The fixed `MevIndicators` value inserted by the back-running pass. -/
def backIndicators : MevIndicators :=
  { is_sandwich := false
    is_frontrunning := false
    is_backrunning := true
    confidence := 6/10
    evidence :=
      ["Large price-moving transaction detected",
       "Followed immediately by DEX operation",
       "Potential back-running MEV pattern"] }

/-- One iteration of the `detect_backrunning` loop: note there is no
`contains_key` check, so the insert at `i + 1` overwrites earlier marks. -/
def backStep (ctxs : List TransactionContext) (m : MevMap) (i : Nat) :
    MevMap :=
  if backPairFires ctxs i then mapInsert m (i+1) backIndicators else m

/-- `MevDetector::detect_backrunning`. -/
def detect_backrunning (ctxs : List TransactionContext) (m : MevMap) :
    MevMap :=
  (List.range (ctxs.length - 1)).foldl (backStep ctxs) m

/-- `MevDetector::analyze_batch_for_mev`: nothing with fewer than two
contexts, otherwise the sandwich, front-running and back-running passes in
that order. -/
def analyze_batch_for_mev (ctxs : List TransactionContext) : MevMap :=
  if ctxs.length < 2 then []
  else
    detect_backrunning ctxs (detect_frontrunning ctxs
      (detect_sandwich_attacks ctxs []))

/-- The per-index result construction of `analyze_batch`. -/
def resultFor (m : MevMap) (idx : Nat) : DetectionResult :=
  match mapLookup idx m with
  | some indicators =>
    DetectionResult.found
      (if indicators.is_sandwich then .Sandwich
       else if indicators.is_frontrunning then .FrontRunning
       else .Mev)
      indicators.confidence
      (if indicators.is_sandwich then
        "Sandwich attack: Attacker surrounds victim transaction"
       else if indicators.is_frontrunning then
        "Frontrunning: Transaction executed before victim"
       else "MEV extraction: Back-running detected")
      indicators.evidence
  | none => DetectionResult.no_detection

/-- `MevDetector::analyze_batch` (the closure ignores the context itself and
uses only its position). -/
def analyze_batch (ctxs : List TransactionContext) : List DetectionResult :=
  (List.range ctxs.length).map (resultFor (analyze_batch_for_mev ctxs))

/-- `MevDetector::analyze_transaction`: single-transaction analysis always
returns no detection. -/
def analyze_transaction (_ctx : TransactionContext) : DetectionResult :=
  DetectionResult.no_detection

theorem mapLookup_insert_self (m : MevMap) (k : Nat) (v : MevIndicators) :
    mapLookup k (mapInsert m k v) = some v := by
  simp [mapInsert, mapLookup]

theorem mapLookup_insert_ne (m : MevMap) {k j : Nat} (h : j ≠ k)
    (v : MevIndicators) : mapLookup k (mapInsert m j v) = mapLookup k m := by
  simp [mapInsert, mapLookup, h]

theorem sandwichStep_lookup_mem {ctxs : List TransactionContext} {i : Nat}
    {v : MevIndicators} (hw : windowFires ctxs i = some v) {k : Nat}
    (hk : k = i ∨ k = i + 1 ∨ k = i + 2) (m : MevMap) :
    mapLookup k (sandwichStep ctxs m i) = some v := by
  unfold sandwichStep
  rw [hw]
  rcases hk with rfl | rfl | rfl
  · rw [mapLookup_insert_ne _ (by omega), mapLookup_insert_ne _ (by omega),
      mapLookup_insert_self]
  · rw [mapLookup_insert_ne _ (by omega), mapLookup_insert_self]
  · rw [mapLookup_insert_self]

theorem sandwichStep_lookup_notMem {ctxs : List TransactionContext} {i k : Nat}
    (hk : ¬(k = i ∨ k = i + 1 ∨ k = i + 2)) (m : MevMap) :
    mapLookup k (sandwichStep ctxs m i) = mapLookup k m := by
  unfold sandwichStep
  cases hw : windowFires ctxs i with
  | none => rfl
  | some v =>
    push_neg at hk
    rw [mapLookup_insert_ne _ (by omega), mapLookup_insert_ne _ (by omega),
      mapLookup_insert_ne _ (by omega)]

theorem foldl_sandwichStep_preserve {ctxs : List TransactionContext} {k : Nat}
    {v : MevIndicators} (idxs : List Nat) (m : MevMap)
    (hm : mapLookup k m = some v)
    (h : ∀ j ∈ idxs, (windowFires ctxs j).isSome = true →
      (k = j ∨ k = j + 1 ∨ k = j + 2) → windowFires ctxs j = some v) :
    mapLookup k (idxs.foldl (sandwichStep ctxs) m) = some v := by
  induction idxs generalizing m with
  | nil => exact hm
  | cons j rest ih =>
    refine ih (sandwichStep ctxs m j) ?_ (fun j' hj' => h j' (by simp [hj']))
    by_cases hkj : k = j ∨ k = j + 1 ∨ k = j + 2
    · cases hw : windowFires ctxs j with
      | none =>
        have : sandwichStep ctxs m j = m := by unfold sandwichStep; rw [hw]
        rw [this, hm]
      | some w =>
        exact sandwichStep_lookup_mem (h j (by simp) (by rw [hw]; rfl) hkj) hkj m
    · rw [sandwichStep_lookup_notMem hkj, hm]

theorem foldl_sandwichStep_writes {ctxs : List TransactionContext} {k : Nat}
    {v : MevIndicators} (idxs : List Nat) (m : MevMap) (i : Nat)
    (hi : i ∈ idxs) (hw : windowFires ctxs i = some v)
    (hk : k = i ∨ k = i + 1 ∨ k = i + 2)
    (h : ∀ j ∈ idxs, (windowFires ctxs j).isSome = true →
      (k = j ∨ k = j + 1 ∨ k = j + 2) → windowFires ctxs j = some v) :
    mapLookup k (idxs.foldl (sandwichStep ctxs) m) = some v := by
  induction idxs generalizing m with
  | nil => cases hi
  | cons j rest ih =>
    rcases List.mem_cons.mp hi with rfl | hirest
    · exact foldl_sandwichStep_preserve rest _
        (sandwichStep_lookup_mem hw hk m) (fun j' hj' => h j' (by simp [hj']))
    · exact ih (sandwichStep ctxs m j) hirest (fun j' hj' => h j' (by simp [hj']))

theorem frontStep_preserve {ctxs : List TransactionContext} {k : Nat}
    {v : MevIndicators} {m : MevMap} (j : Nat)
    (hm : mapLookup k m = some v) :
    mapLookup k (frontStep ctxs m j) = some v := by
  unfold frontStep
  by_cases hc : mapContains m j
  · rw [if_pos hc, hm]
  · rw [if_neg hc]
    have hjk : j ≠ k := by
      intro hjkeq
      subst hjkeq
      exact hc (by simp [mapContains, hm])
    cases ctxs.get? j with
    | none => exact hm
    | some current =>
      cases ctxs.get? (j+1) with
      | none => exact hm
      | some next =>
        by_cases hf : frontFires current next = true
        · simp only [hf, if_pos]
          rw [mapLookup_insert_ne _ hjk, hm]
        · simp only [if_neg hf]
          exact hm

theorem foldl_frontStep_preserve (ctxs : List TransactionContext) {k : Nat}
    {v : MevIndicators} (idxs : List Nat) (m : MevMap)
    (hm : mapLookup k m = some v) :
    mapLookup k (idxs.foldl (frontStep ctxs) m) = some v := by
  induction idxs generalizing m with
  | nil => exact hm
  | cons j rest ih => exact ih _ (frontStep_preserve j hm)


theorem backStep_preserve {ctxs : List TransactionContext} {k : Nat}
    {m : MevMap} (j : Nat)
    (h : backPairFires ctxs j = true → j + 1 ≠ k) :
    mapLookup k (backStep ctxs m j) = mapLookup k m := by
  unfold backStep
  by_cases hf : backPairFires ctxs j = true
  · rw [if_pos hf, mapLookup_insert_ne _ (h hf)]
  · rw [if_neg hf]

theorem foldl_backStep_preserve (ctxs : List TransactionContext) {k : Nat}
    (idxs : List Nat) (m : MevMap)
    (h : ∀ j ∈ idxs, backPairFires ctxs j = true → j + 1 ≠ k) :
    mapLookup k (idxs.foldl (backStep ctxs) m) = mapLookup k m := by
  induction idxs generalizing m with
  | nil => rfl
  | cons j rest ih =>
    rw [List.foldl_cons, ih _ (fun j' hj' => h j' (by simp [hj'])),
      backStep_preserve j (h j (by simp))]

theorem analyze_batch_get? {ctxs : List TransactionContext} {k : Nat}
    (hk : k < ctxs.length) :
    (analyze_batch ctxs).get? k =
      some (resultFor (analyze_batch_for_mev ctxs) k) := by
  unfold analyze_batch
  rw [List.get?_map, List.get?_range hk]
  rfl

end MevDetector

/-- Outer contexts of the C2 counterexample batch (indices 10, 11, 12,
callers A–B–A, all DEX operations, middle context carrying a large state
change). -/
def ctxMevA : TransactionContext :=
  { transaction :=
      { hash := "0xm0", block_number := 5, block_hash := "0xb", index := 10,
        caller := "A", pallet := "dex", call := "swap", nonce := some 5 }
    events := [], state_changes := [] }

/-- Middle (victim) context of the C2 counterexample batch: its state change
flips every byte, so the back-running pass fires on the pair (1, 2). -/
def ctxMevB : TransactionContext :=
  { transaction :=
      { hash := "0xm1", block_number := 5, block_hash := "0xb", index := 11,
        caller := "B", pallet := "dex", call := "swap" }
    events := []
    state_changes := [{ old_value := some [1, 2, 3, 4], new_value := some [9, 9, 9, 9] }] }

/-- Closing context of the C2 counterexample batch. -/
def ctxMevC : TransactionContext :=
  { transaction :=
      { hash := "0xm2", block_number := 5, block_hash := "0xb", index := 12,
        caller := "A", pallet := "dex", call := "swap", nonce := some 6 }
    events := [], state_changes := [] }

/-- The C2 counterexample batch. -/
def ctxsMevCex : List TransactionContext := [ctxMevA, ctxMevB, ctxMevC]

/-- C2, counterexample: the sandwich window conditions hold on the whole
batch `ctxsMevCex` (same outer caller, distinct middle caller, sequential,
all DEX), yet `analyze_batch` does not mark all three positions Sandwich:
position 0 carries pattern `Sandwich` but position 2 carries pattern `Mev`
with confidence 0.6 — the back-running pass overwrote the sandwich mark,
because the middle transaction has a large state change followed by a DEX
transaction at the adjacent index. -/
theorem mev_sandwich_claim_cex :
    MevDetector.sandwichFires ctxMevA ctxMevB ctxMevC = true ∧
      ((MevDetector.analyze_batch ctxsMevCex).get? 0).map
        (fun r => r.pattern) = some .Sandwich ∧
      ((MevDetector.analyze_batch ctxsMevCex).get? 2).map
        (fun r => r.pattern) = some .Mev ∧
      ((MevDetector.analyze_batch ctxsMevCex).get? 2).map
        (fun r => r.confidence) = some (6/10) ∧
      (AttackPattern.Mev ≠ AttackPattern.Sandwich) := by
  exact ⟨by decide, by rfl, by rfl, by rfl, by decide⟩

/-- C2 (amended): for every batch and window (i, i+1, i+2) satisfying the
sandwich conditions (shared outer caller, distinct middle caller, all three
DEX-like, strictly sequential or gaps ≤ 3), **provided** no other firing
sandwich window overlaps these three positions and no firing back-running
pair targets any of them, all three positions of `analyze_batch` are marked
`Sandwich` with the shared confidence 0.7 base, +0.15 if exactly sequential,
+0.1 if the nonce at i+2 is the nonce at i plus 1, and shared evidence;
moreover a window whose middle caller equals the outer caller never fires
(the sandwich pass leaves the map unchanged there). -/
theorem mev_sandwich_window_spec (ctxs : List TransactionContext) (i : Nat)
    (b mid a : TransactionContext)
    (hb : ctxs.get? i = some b) (hm : ctxs.get? (i+1) = some mid)
    (ha : ctxs.get? (i+2) = some a)
    (hfire : MevDetector.sandwichFires b mid a = true)
    (hOnly : ∀ j < ctxs.length, j ≠ i →
      (MevDetector.windowFires ctxs j).isSome = true → j + 2 < i ∨ i + 2 < j)
    (hBack : ∀ j < ctxs.length,
      MevDetector.backPairFires ctxs j = true → j + 1 < i ∨ i + 2 < j + 1) :
    (∀ k, (k = i ∨ k = i + 1 ∨ k = i + 2) →
      (MevDetector.analyze_batch ctxs).get? k =
        some (DetectionResult.found .Sandwich (MevDetector.sandwichConf b mid a)
          "Sandwich attack: Attacker surrounds victim transaction"
          (MevDetector.sandwichEvidence b mid a))) ∧
    (∀ (b' mid' a' : TransactionContext),
      mid'.transaction.caller = b'.transaction.caller →
      MevDetector.sandwichFires b' mid' a' = false) := by
  constructor
  · have hlen : i + 2 < ctxs.length := by
      rcases List.get?_eq_some.mp ha with ⟨hlt, _⟩
      exact hlt
    have hw : MevDetector.windowFires ctxs i =
        some (MevDetector.sandwichIndicators b mid a) := by
      have hb' := hb
      have hm' := hm
      have ha' := ha
      simp only [List.get?_eq_getElem?] at hb' hm' ha'
      simp [MevDetector.windowFires, hb', hm', ha', hfire]
    intro k hk
    rw [MevDetector.analyze_batch_get? (by omega)]
    have honly : ∀ j ∈ List.range (ctxs.length - 2),
        (MevDetector.windowFires ctxs j).isSome = true →
        (k = j ∨ k = j + 1 ∨ k = j + 2) →
        MevDetector.windowFires ctxs j =
          some (MevDetector.sandwichIndicators b mid a) := by
      intro j hj hjsome hkj
      have hjlen : j < ctxs.length := by
        have := List.mem_range.mp hj; omega
      by_cases hji : j = i
      · subst hji; exact hw
      · rcases hOnly j hjlen hji hjsome with h' | h' <;> omega
    have hs : MevDetector.mapLookup k (MevDetector.detect_sandwich_attacks ctxs []) =
        some (MevDetector.sandwichIndicators b mid a) :=
      MevDetector.foldl_sandwichStep_writes _ _ i
        (List.mem_range.mpr (by omega)) hw hk honly
    have hf := MevDetector.foldl_frontStep_preserve ctxs
      (List.range (ctxs.length - 1)) _ hs
    have hbk : MevDetector.mapLookup k
        (MevDetector.analyze_batch_for_mev ctxs) =
        some (MevDetector.sandwichIndicators b mid a) := by
      unfold MevDetector.analyze_batch_for_mev
      rw [if_neg (by omega)]
      unfold MevDetector.detect_backrunning
      rw [MevDetector.foldl_backStep_preserve ctxs _ _ ?_]
      · exact hf
      · intro j hj hjfire
        have hjlen : j < ctxs.length := by
          have := List.mem_range.mp hj; omega
        rcases hBack j hjlen hjfire with h' | h' <;> omega
    unfold MevDetector.resultFor
    rw [hbk]
    rfl
  · intro b' mid' a' hcall
    unfold MevDetector.sandwichFires
    simp [hcall]

/-- The batch on which the sandwich-window conditions hold in isolation:
callers A–B–A at indices 10, 11, 12, all DEX, no state changes. -/
def ctxsMevW : List TransactionContext :=
  [ { transaction :=
        { hash := "0xw0", block_number := 6, block_hash := "0xb", index := 10,
          caller := "A", pallet := "dex", call := "swap", nonce := some 5 }
      events := [], state_changes := [] },
    { transaction :=
        { hash := "0xw1", block_number := 6, block_hash := "0xb", index := 11,
          caller := "B", pallet := "dex", call := "swap" }
      events := [], state_changes := [] },
    { transaction :=
        { hash := "0xw2", block_number := 6, block_hash := "0xb", index := 12,
          caller := "A", pallet := "dex", call := "swap", nonce := some 6 }
      events := [], state_changes := [] } ]

/-- Witness for C2: on the clean A–B–A DEX batch all hypotheses hold and
index 0 is marked Sandwich with the shared confidence and evidence. -/
theorem mev_sandwich_window_spec_witness :
    (MevDetector.analyze_batch ctxsMevW).get? 0 =
      some (DetectionResult.found .Sandwich
        (MevDetector.sandwichConf (ctxsMevW.get ⟨0, by decide⟩)
          (ctxsMevW.get ⟨1, by decide⟩) (ctxsMevW.get ⟨2, by decide⟩))
        "Sandwich attack: Attacker surrounds victim transaction"
        (MevDetector.sandwichEvidence (ctxsMevW.get ⟨0, by decide⟩)
          (ctxsMevW.get ⟨1, by decide⟩) (ctxsMevW.get ⟨2, by decide⟩))) :=
  (mev_sandwich_window_spec ctxsMevW 0 _ _ _ rfl rfl rfl (by decide)
    (by decide) (by decide)).1 0 (Or.inl rfl)

/-- The C3 counterexample batch: the pair (1, 2) fires the front-running
pass (same pallet+call, different callers, adjacent), and the pair (0, 1)
fires the back-running pass (large state change at index 0 followed by an
adjacent DEX call), whose insert targets index 1. -/
def ctxsMevPrio : List TransactionContext :=
  [ { transaction :=
        { hash := "0xp0", block_number := 7, block_hash := "0xb", index := 10,
          caller := "X", pallet := "omni", call := "other" }
      events := []
      state_changes := [{ old_value := some [1, 2, 3, 4], new_value := some [9, 9, 9, 9] }] },
    { transaction :=
        { hash := "0xp1", block_number := 7, block_hash := "0xb", index := 11,
          caller := "B", pallet := "omni", call := "swap" }
      events := [], state_changes := [] },
    { transaction :=
        { hash := "0xp2", block_number := 7, block_hash := "0xb", index := 12,
          caller := "C", pallet := "omni", call := "swap" }
      events := [], state_changes := [] } ]

/-- C3, counterexample: after the front-running pass index 1 of
`ctxsMevPrio` is marked FrontRunning, but the back-running pass overwrites
it — the final batch result at index 1 has pattern `Mev` with confidence
0.6, so the back-running pass does not skip indices claimed by an earlier
pass. -/
theorem mev_pass_priority_cex :
    (MevDetector.mapLookup 1 (MevDetector.detect_frontrunning ctxsMevPrio
        (MevDetector.detect_sandwich_attacks ctxsMevPrio []))).map
      (fun v => v.is_frontrunning) = some true ∧
    ((MevDetector.analyze_batch ctxsMevPrio).get? 1).map
      (fun r => r.pattern) = some .Mev ∧
    ((MevDetector.analyze_batch ctxsMevPrio).get? 1).map
      (fun r => r.confidence) = some (6/10) := by
  exact ⟨by rfl, by rfl, by rfl⟩

/-- C3 (amended): the front-running pass skips every index already present
in the indicator map, so any binding — in particular a Sandwich mark from
the first pass — survives `detect_frontrunning` unchanged; the back-running
pass performs no such check and can overwrite earlier marks at its target
index (see the counterexample). -/
theorem mev_frontrunning_skips_claimed (ctxs : List TransactionContext)
    (m : MevDetector.MevMap) (k : Nat) (v : MevDetector.MevIndicators)
    (h : MevDetector.mapLookup k m = some v) :
    MevDetector.mapLookup k (MevDetector.detect_frontrunning ctxs m) = some v :=
  MevDetector.foldl_frontStep_preserve ctxs _ m h

/-- Witness for C3: a concrete binding at index 1 survives the front-running
pass over `ctxsMevPrio`. -/
theorem mev_frontrunning_skips_claimed_witness :
    MevDetector.mapLookup 1 (MevDetector.detect_frontrunning ctxsMevPrio
      [(1, MevDetector.backIndicators)]) = some MevDetector.backIndicators :=
  mev_frontrunning_skips_claimed ctxsMevPrio
    [(1, MevDetector.backIndicators)] 1 MevDetector.backIndicators (by rfl)

/-! ## CrossChainBridgeDetector
(`src/packages/monitoring-engine/src/detectors/hyperbridge.rs`) -/

/-- A bridge-protocol pallet: name contains `"ismp"` or `"hyperbridge"`. -/
def isBridgePallet (e : ChainEvent) : Bool :=
  strContains (strLower e.pallet) "ismp" ||
    strContains (strLower e.pallet) "hyperbridge"

/-- Event name marks a POST request. -/
def isPostReqName (e : ChainEvent) : Bool :=
  strContains (strLower e.event_name) "post" &&
    strContains (strLower e.event_name) "request"

/-- Event name marks a GET request. -/
def isGetReqName (e : ChainEvent) : Bool :=
  strContains (strLower e.event_name) "get" &&
    strContains (strLower e.event_name) "request"

/-- Event name marks a POST response. -/
def isPostRespName (e : ChainEvent) : Bool :=
  strContains (strLower e.event_name) "post" &&
    strContains (strLower e.event_name) "response"

/-- Event name marks a GET response. -/
def isGetRespName (e : ChainEvent) : Bool :=
  strContains (strLower e.event_name) "get" &&
    strContains (strLower e.event_name) "response"

/-- The commitment string carried by an event, when any. -/
def commitmentOf (e : ChainEvent) : Option String :=
  e.event_data.bind (fun d => d.commitment)

/-- The destination string carried by an event, when any. -/
def destOf (e : ChainEvent) : Option String :=
  e.event_data.bind (fun d => d.dest)

namespace CrossChainBridgeDetector

/-- The `CrossChainIndicators` struct. -/
structure CrossChainIndicators where
  has_post_request : Bool
  has_get_request : Bool
  has_post_response : Bool
  has_get_response : Bool
  request_count : Nat
  response_count : Nat
  duplicate_commitments : List String
  multiple_destinations : Bool
  high_value_transfer : Bool
  rapid_succession : Bool
  deriving DecidableEq, Repr

/-- The mutable locals of the `analyze_events` loop. -/
structure ScanState where
  has_post_request : Bool := false
  has_get_request : Bool := false
  has_post_response : Bool := false
  has_get_response : Bool := false
  request_count : Nat := 0
  response_count : Nat := 0
  commitments : List String := []
  destinations : List String := []
  deriving DecidableEq, Repr

/-- The body of the `analyze_events` loop: under the bridge-pallet guard, the
four independent name tests, with commitment/destination extraction on POST
requests. -/
def scanStep (s : ScanState) (e : ChainEvent) : ScanState :=
  if isBridgePallet e then
    let s :=
      if isPostReqName e then
        { s with
          has_post_request := true
          request_count := s.request_count + 1
          commitments := s.commitments ++ (commitmentOf e).toList
          destinations := s.destinations ++ (destOf e).toList }
      else s
    let s :=
      if isGetReqName e then
        { s with has_get_request := true, request_count := s.request_count + 1 }
      else s
    let s :=
      if isPostRespName e then
        { s with has_post_response := true, response_count := s.response_count + 1 }
      else s
    let s :=
      if isGetRespName e then
        { s with has_get_response := true, response_count := s.response_count + 1 }
      else s
    s
  else s

/-- `CrossChainBridgeDetector::detect_high_value_transfer`: some state-change
key contains `"Balance"` or `"balance"`. -/
def detect_high_value_transfer (state_changes : List StateChange) : Bool :=
  state_changes.any (fun c =>
    strContains c.key "Balance" || strContains c.key "balance")

/-- `CrossChainBridgeDetector::analyze_events`. -/
def analyze_events (ctx : TransactionContext) : CrossChainIndicators :=
  let s := ctx.events.foldl scanStep {}
  { has_post_request := s.has_post_request
    has_get_request := s.has_get_request
    has_post_response := s.has_post_response
    has_get_response := s.has_get_response
    request_count := s.request_count
    response_count := s.response_count
    duplicate_commitments :=
      s.commitments.dedup.filter (fun c => 2 ≤ s.commitments.count c)
    multiple_destinations := s.destinations.dedup.length > 1
    high_value_transfer := detect_high_value_transfer ctx.state_changes
    rapid_succession := s.request_count > 3 }

/-- `CrossChainBridgeDetector::calculate_confidence`. -/
def calculate_confidence (indicators : CrossChainIndicators) : ℚ :=
  min ((if indicators.duplicate_commitments ≠ [] then (6/10 : ℚ) else 0)
    + (if indicators.rapid_succession then (2/10 : ℚ) else 0)
    + (if indicators.multiple_destinations then (15/100 : ℚ) else 0)
    + (if indicators.high_value_transfer ∧ indicators.request_count > 1
        then (15/100 : ℚ) else 0)
    + (if indicators.request_count > 0 ∧ indicators.response_count = 0
        then (1/10 : ℚ) else 0)) 1

/-- `CrossChainBridgeDetector::build_evidence`. -/
def build_evidence (indicators : CrossChainIndicators) : List String :=
  (if indicators.duplicate_commitments ≠ [] then
    ["Duplicate request commitments detected: "
        ++ toString indicators.duplicate_commitments.length]
      ++ indicators.duplicate_commitments.map (fun c => "  - " ++ c)
   else [])
  ++ (if indicators.rapid_succession then
      ["Rapid succession of " ++ toString indicators.request_count
        ++ " cross-chain requests in single transaction"] else [])
  ++ (if indicators.multiple_destinations then
      ["Multiple destination chains targeted (potential spray attack)"] else [])
  ++ (if indicators.high_value_transfer then
      ["High-value transfer detected in cross-chain message"] else [])
  ++ (if indicators.request_count > 0 ∧ indicators.response_count = 0 then
      ["Requests without responses (potential timeout exploitation)"] else [])

/-- `CrossChainBridgeDetector::analyze_transaction` for the detector as
constructed by `new()` (`enabled == true`, so the `!enabled → safe` branch is
not taken). -/
def analyze_transaction (ctx : TransactionContext) : DetectionResult :=
  if (analyze_events ctx).request_count = 0 ∧
      (analyze_events ctx).response_count = 0 then
    DetectionResult.safe
  else
    { detected := decide (calculate_confidence (analyze_events ctx) > 1/2)
      confidence := calculate_confidence (analyze_events ctx)
      pattern := .CrossChainBridge
      description :=
        if calculate_confidence (analyze_events ctx) > 1/2 then
          "Suspicious cross-chain bridge activity detected. Potential message replay, spray attack, or cross-chain drain attempt."
        else "Cross-chain bridge activity appears normal."
      evidence := build_evidence (analyze_events ctx) }

end CrossChainBridgeDetector

/-! ### Spec-side reading of the bridge indicators (claim C4) -/

/-- A bridge POST-request event (bridge pallet + POST request name). -/
def isPostRequestEvent (e : ChainEvent) : Bool :=
  isBridgePallet e && isPostReqName e

/-- A bridge GET-request event. -/
def isGetRequestEvent (e : ChainEvent) : Bool :=
  isBridgePallet e && isGetReqName e

/-- A bridge POST-response event. -/
def isPostResponseEvent (e : ChainEvent) : Bool :=
  isBridgePallet e && isPostRespName e

/-- A bridge GET-response event. -/
def isGetResponseEvent (e : ChainEvent) : Bool :=
  isBridgePallet e && isGetRespName e

/-- Number of bridge requests in the transaction (an event with both POST-
and GET-request names counts twice, as in the source's two separate
increments). -/
def bridgeRequestCount (ctx : TransactionContext) : Nat :=
  ctx.events.countP (fun e => isPostRequestEvent e) +
    ctx.events.countP (fun e => isGetRequestEvent e)

/-- Number of bridge responses in the transaction. -/
def bridgeResponseCount (ctx : TransactionContext) : Nat :=
  ctx.events.countP (fun e => isPostResponseEvent e) +
    ctx.events.countP (fun e => isGetRespName e && isBridgePallet e)

/-- The commitments collected from POST-request events, in order. -/
def bridgeCommitments (ctx : TransactionContext) : List String :=
  ctx.events.filterMap
    (fun e => if isPostRequestEvent e then commitmentOf e else none)

/-- The destinations collected from POST-request events, in order. -/
def bridgeDests (ctx : TransactionContext) : List String :=
  ctx.events.filterMap
    (fun e => if isPostRequestEvent e then destOf e else none)

/-- Some commitment value appears at least twice in the transaction's
events. -/
def hasDupCommitment (ctx : TransactionContext) : Prop :=
  ∃ c ∈ bridgeCommitments ctx, 2 ≤ (bridgeCommitments ctx).count c

instance (ctx : TransactionContext) : Decidable (hasDupCommitment ctx) :=
  List.decidableBEx _ _

/-- More than one distinct destination appears. -/
def multipleBridgeDests (ctx : TransactionContext) : Prop :=
  1 < (bridgeDests ctx).dedup.length

instance (ctx : TransactionContext) : Decidable (multipleBridgeDests ctx) :=
  Nat.decLt _ _

/-- The additive bridge confidence exactly as claim C4 words it. -/
def claimBridgeConfidence (ctx : TransactionContext) : ℚ :=
  min ((if hasDupCommitment ctx then (6/10 : ℚ) else 0)
    + (if bridgeRequestCount ctx > 3 then (2/10 : ℚ) else 0)
    + (if multipleBridgeDests ctx then (15/100 : ℚ) else 0)
    + (if CrossChainBridgeDetector.detect_high_value_transfer ctx.state_changes
          ∧ bridgeRequestCount ctx > 1 then (15/100 : ℚ) else 0)
    + (if bridgeRequestCount ctx > 0 ∧ bridgeResponseCount ctx = 0
        then (1/10 : ℚ) else 0)) 1

/-- The `analyze_events` loop computes exactly the spec-side scans. -/
theorem CrossChainBridgeDetector.foldl_scanStep (evs : List ChainEvent)
    (s : CrossChainBridgeDetector.ScanState) :
    evs.foldl CrossChainBridgeDetector.scanStep s =
      { has_post_request := s.has_post_request || evs.any isPostRequestEvent
        has_get_request := s.has_get_request || evs.any isGetRequestEvent
        has_post_response := s.has_post_response || evs.any isPostResponseEvent
        has_get_response := s.has_get_response || evs.any isGetResponseEvent
        request_count := s.request_count +
          (evs.countP (fun e => isPostRequestEvent e) +
            evs.countP (fun e => isGetRequestEvent e))
        response_count := s.response_count +
          (evs.countP (fun e => isPostResponseEvent e) +
            evs.countP (fun e => isGetRespName e && isBridgePallet e))
        commitments := s.commitments ++ evs.filterMap
          (fun e => if isPostRequestEvent e then commitmentOf e else none)
        destinations := s.destinations ++ evs.filterMap
          (fun e => if isPostRequestEvent e then destOf e else none) } := by
  induction evs generalizing s with
  | nil => simp
  | cons e rest ih =>
    rw [List.foldl_cons, ih]
    simp only [CrossChainBridgeDetector.scanStep, List.any_cons,
      List.countP_cons, List.filterMap_cons, isPostRequestEvent,
      isGetRequestEvent, isPostResponseEvent, isGetResponseEvent]
    by_cases hb : isBridgePallet e = true <;>
      by_cases h1 : isPostReqName e = true <;>
        by_cases h2 : isGetReqName e = true <;>
          by_cases h3 : isPostRespName e = true <;>
            by_cases h4 : isGetRespName e = true <;>
              simp_all [Bool.or_assoc, List.append_assoc] <;> and_intros <;>
                first
                  | omega
                  | (cases commitmentOf e <;> simp)
                  | (cases destOf e <;> simp)

/-- `analyze_events` in terms of the spec-side scans. -/
theorem CrossChainBridgeDetector.bridge_analyze_events_eq (ctx : TransactionContext) :
    CrossChainBridgeDetector.analyze_events ctx =
      { has_post_request := ctx.events.any isPostRequestEvent
        has_get_request := ctx.events.any isGetRequestEvent
        has_post_response := ctx.events.any isPostResponseEvent
        has_get_response := ctx.events.any isGetResponseEvent
        request_count := bridgeRequestCount ctx
        response_count := bridgeResponseCount ctx
        duplicate_commitments := (bridgeCommitments ctx).dedup.filter
          (fun c => 2 ≤ (bridgeCommitments ctx).count c)
        multiple_destinations := decide ((bridgeDests ctx).dedup.length > 1)
        high_value_transfer :=
          CrossChainBridgeDetector.detect_high_value_transfer ctx.state_changes
        rapid_succession := decide (bridgeRequestCount ctx > 3) } := by
  unfold CrossChainBridgeDetector.analyze_events
  rw [CrossChainBridgeDetector.foldl_scanStep]
  simp [bridgeRequestCount, bridgeResponseCount, bridgeCommitments, bridgeDests]

/-- The detector's confidence computation agrees with the claim formula on
every context. -/
theorem bridge_confidence_eq (ctx : TransactionContext) :
    CrossChainBridgeDetector.calculate_confidence
        (CrossChainBridgeDetector.analyze_events ctx) =
      claimBridgeConfidence ctx := by
  rw [CrossChainBridgeDetector.bridge_analyze_events_eq]
  have hdup : ((bridgeCommitments ctx).dedup.filter
      (fun c => 2 ≤ (bridgeCommitments ctx).count c) ≠ []) ↔
      hasDupCommitment ctx := by
    simp only [hasDupCommitment, Ne, List.filter_eq_nil_iff, List.mem_dedup]
    push_neg
    simp [decide_eq_true_eq]
  unfold CrossChainBridgeDetector.calculate_confidence claimBridgeConfidence
  simp only [decide_eq_true_eq, hdup, multipleBridgeDests, gt_iff_lt]

/-- With no bridge requests and no bridge responses the claim formula
evaluates to 0. -/
theorem bridge_confidence_gated (ctx : TransactionContext)
    (hreq : bridgeRequestCount ctx = 0) (_hresp : bridgeResponseCount ctx = 0) :
    claimBridgeConfidence ctx = 0 := by
  have hpost : ctx.events.countP (fun e => isPostRequestEvent e) = 0 := by
    unfold bridgeRequestCount at hreq; omega
  have hnone : ∀ e ∈ ctx.events, isPostRequestEvent e = false := by
    intro e he
    have := List.countP_eq_zero.mp hpost e he
    simpa using this
  have hcomm : bridgeCommitments ctx = [] := by
    unfold bridgeCommitments
    rw [List.filterMap_eq_nil_iff]
    intro e he
    rw [hnone e he]
    rfl
  have hdest : bridgeDests ctx = [] := by
    unfold bridgeDests
    rw [List.filterMap_eq_nil_iff]
    intro e he
    rw [hnone e he]
    rfl
  unfold claimBridgeConfidence
  rw [if_neg, if_neg, if_neg, if_neg, if_neg]
  · norm_num
  · omega
  · rintro ⟨-, h⟩; omega
  · rw [multipleBridgeDests, hdest]; simp
  · omega
  · rintro ⟨c, hc, -⟩; rw [hcomm] at hc; cases hc

/-- C4: `CrossChainBridgeDetector.analyze_transaction` carries exactly the
additive confidence of the claim (+0.6 duplicate commitment, +0.2 for more
than 3 requests, +0.15 for multiple distinct destinations, +0.15 for a
balance-like state-change key with more than one request, +0.1 for requests
with no responses, capped at 1), reports `detected == true` iff that
confidence is strictly greater than 0.5 with pattern `CrossChainBridge`, and
returns the safe non-detection without scoring when there is no bridge
request and no bridge response. -/
theorem bridge_detector_spec (ctx : TransactionContext) :
    (CrossChainBridgeDetector.analyze_transaction ctx).confidence =
        claimBridgeConfidence ctx ∧
      ((CrossChainBridgeDetector.analyze_transaction ctx).detected = true ↔
        claimBridgeConfidence ctx > 1/2) ∧
      ((CrossChainBridgeDetector.analyze_transaction ctx).detected = true →
        (CrossChainBridgeDetector.analyze_transaction ctx).pattern =
          .CrossChainBridge) ∧
      (bridgeRequestCount ctx = 0 ∧ bridgeResponseCount ctx = 0 →
        CrossChainBridgeDetector.analyze_transaction ctx =
          DetectionResult.safe) := by
  unfold CrossChainBridgeDetector.analyze_transaction
  rw [CrossChainBridgeDetector.bridge_analyze_events_eq]
  by_cases hgate : bridgeRequestCount ctx = 0 ∧ bridgeResponseCount ctx = 0
  · rw [if_pos (by simpa using hgate)]
    have h0 := bridge_confidence_gated ctx hgate.1 hgate.2
    refine ⟨by rw [h0]; rfl, ?_, ?_, fun _ => rfl⟩
    · rw [h0]
      simp [DetectionResult.safe, DetectionResult.no_detection]
    · intro hdet
      simp [DetectionResult.safe, DetectionResult.no_detection] at hdet
  · rw [if_neg (by simpa using hgate)]
    have hcalc : CrossChainBridgeDetector.calculate_confidence
        (CrossChainBridgeDetector.analyze_events ctx) =
        claimBridgeConfidence ctx := bridge_confidence_eq ctx
    rw [CrossChainBridgeDetector.bridge_analyze_events_eq] at hcalc
    refine ⟨hcalc, ?_, fun _ => rfl, fun h => absurd h hgate⟩
    simp [hcalc]

/-- A transaction with two ISMP POST requests sharing one commitment and
naming two destinations, with no responses: confidence 0.85, detected. -/
def ctxBridgeW : TransactionContext :=
  { transaction :=
      { hash := "0xbw", block_number := 9, block_hash := "0xb", index := 0,
        caller := "R", pallet := "Ismp", call := "handle" }
    events :=
      [ { pallet := "Ismp", event_name := "PostRequestAccepted",
          event_data := some { commitment := some "c1", dest := some "ETH" } },
        { pallet := "Ismp", event_name := "PostRequestAccepted",
          event_data := some { commitment := some "c1", dest := some "BSC" } } ]
    state_changes := [] }

/-- Witness for C4: the duplicate-commitment transaction is detected with
pattern `CrossChainBridge` and the claimed confidence. -/
theorem bridge_detector_spec_witness :
    (CrossChainBridgeDetector.analyze_transaction ctxBridgeW).detected = true ∧
      (CrossChainBridgeDetector.analyze_transaction ctxBridgeW).confidence =
        claimBridgeConfidence ctxBridgeW := by
  have hc : claimBridgeConfidence ctxBridgeW = 85/100 := by
    have h1 : hasDupCommitment ctxBridgeW := by decide
    have h2 : bridgeRequestCount ctxBridgeW = 2 := by decide
    have h3 : multipleBridgeDests ctxBridgeW := by decide
    have h4 : bridgeResponseCount ctxBridgeW = 0 := by decide
    have h5 : CrossChainBridgeDetector.detect_high_value_transfer
        ctxBridgeW.state_changes = false := by decide
    unfold claimBridgeConfidence
    rw [if_pos h1, if_neg (by omega), if_pos h3, if_neg (by simp [h5]),
      if_pos (by omega)]
    norm_num
  refine ⟨(bridge_detector_spec ctxBridgeW).2.1.mpr ?_,
    (bridge_detector_spec ctxBridgeW).1⟩
  rw [hc]
  norm_num

/-! ## FrontRunningDetector (single-transaction, stateful)
(`src/packages/monitoring-engine/src/detectors/frontrunning.rs`).  The
private rolling history is passed explicitly: `analyze_transaction history
ctx` is the method's behaviour when `recent_transactions` holds
`history`. -/

namespace FrontRunningDetector

/-- The `FrontRunningIndicators` struct. -/
structure FrontRunningIndicators where
  has_duplicate_call : Bool
  is_high_priority : Bool
  has_sandwich_pattern : Bool
  similar_transaction_count : Nat
  same_target_count : Nat
  deriving DecidableEq, Repr

/-- `add_to_history`: evict the oldest entry at capacity 100, then append. -/
def add_to_history (history : List ParsedTransaction)
    (tx : ParsedTransaction) : List ParsedTransaction :=
  (if 100 ≤ history.length then history.drop 1 else history) ++ [tx]

/-- The body of the history loop in `analyze_mempool_pattern`, accumulating
(has_duplicate_call, similar_transaction_count, same_target_count). -/
def mempoolStep (tx : ParsedTransaction) (acc : Bool × Nat × Nat)
    (recent : ParsedTransaction) : Bool × Nat × Nat :=
  if recent.hash = tx.hash then acc
  else
    let (dup, similar, same_target) := acc
    let (dup, similar, same_target) :=
      if recent.pallet = tx.pallet ∧ recent.call = tx.call then
        if recent.caller ≠ tx.caller then (true, similar + 1, same_target + 1)
        else (dup, similar, same_target + 1)
      else (dup, similar, same_target)
    let similar :=
      if recent.caller = tx.caller ∧ recent.pallet = tx.pallet ∧
          recent.block_number = tx.block_number
      then similar + 1 else similar
    (dup, similar, same_target)

/-- The positional scan of `detect_sandwich_pattern` over the same-block
transactions. -/
def sandwichScan (block_txs : List ParsedTransaction)
    (tx : ParsedTransaction) : Bool :=
  (List.range block_txs.length).any (fun i =>
    match block_txs.get? i with
    | some t =>
      (t.hash = tx.hash : Bool) &&
        (decide (0 < i) && decide (i < block_txs.length - 1)) &&
        (match block_txs.get? (i - 1), block_txs.get? (i + 1) with
         | some prev, some next =>
           (prev.caller = next.caller : Bool) &&
             !(prev.caller = tx.caller : Bool) &&
             (prev.pallet = tx.pallet : Bool) &&
             (next.pallet = tx.pallet : Bool)
         | _, _ => false)
    | none => false)

/-- `FrontRunningDetector::detect_sandwich_pattern`. -/
def detect_sandwich_pattern (history : List ParsedTransaction)
    (ctx : TransactionContext) : Bool :=
  if history.length < 2 then false
  else
    let block_txs := history.filter
      (fun t => t.block_number = ctx.transaction.block_number)
    if block_txs.length < 2 then false
    else sandwichScan block_txs ctx.transaction

/-- `FrontRunningDetector::analyze_mempool_pattern` (`is_high_priority` is a
TODO in the source and always false). -/
def analyze_mempool_pattern (history : List ParsedTransaction)
    (ctx : TransactionContext) : FrontRunningIndicators :=
  let (dup, similar, same_target) :=
    history.foldl (mempoolStep ctx.transaction) (false, 0, 0)
  { has_duplicate_call := dup
    is_high_priority := false
    has_sandwich_pattern := detect_sandwich_pattern history ctx
    similar_transaction_count := similar
    same_target_count := same_target }

/-- `FrontRunningDetector::calculate_confidence`. -/
def calculate_confidence (ind : FrontRunningIndicators) : ℚ :=
  min ((if ind.has_sandwich_pattern then (7/10 : ℚ) else 0)
    + (if ind.has_duplicate_call then (3/10 : ℚ) else 0)
    + (if ind.similar_transaction_count > 1 then
        (1/10 : ℚ) * min (ind.similar_transaction_count : ℚ) 2 else 0)
    + (if ind.is_high_priority then (1/10 : ℚ) else 0)
    + (if ind.same_target_count > 2 then (1/10 : ℚ) else 0)) 1

/-- `FrontRunningDetector::build_evidence`. -/
def build_evidence (ind : FrontRunningIndicators)
    (ctx : TransactionContext) : List String :=
  (if ind.has_sandwich_pattern then
    ["Sandwich attack pattern detected: transaction sandwiched between two transactions from same attacker"]
   else [])
  ++ (if ind.has_duplicate_call then
      ["Duplicate call detected: Same pallet.call (" ++ ctx.transaction.pallet
        ++ "." ++ ctx.transaction.call ++ ") from different sender"] else [])
  ++ (if ind.similar_transaction_count > 1 then
      ["Multiple similar transactions detected: "
        ++ toString ind.similar_transaction_count
        ++ " similar calls in mempool"] else [])
  ++ (if ind.same_target_count > 2 then
      ["High competition for same target: " ++ toString ind.same_target_count
        ++ " transactions targeting " ++ ctx.transaction.pallet ++ "."
        ++ ctx.transaction.call] else [])
  ++ (if ind.is_high_priority then
      ["High priority transaction detected (elevated fees/nonce)"] else [])

/-- `FrontRunningDetector::determine_pattern`. -/
def determine_pattern (ind : FrontRunningIndicators) : AttackPattern :=
  if ind.has_sandwich_pattern then .Sandwich
  else if ind.has_duplicate_call || decide (ind.similar_transaction_count > 1)
  then .FrontRunning
  else .Unknown

/-- `FrontRunningDetector::analyze_transaction` with explicit history: the
transaction is appended to the history first, then analyzed against it;
reported at the 0.4 floor. -/
def frontDescription (ind : FrontRunningIndicators)
    (ctx : TransactionContext) : String :=
  if ind.has_sandwich_pattern then
    "Sandwich attack detected on " ++ ctx.transaction.pallet ++ "."
      ++ ctx.transaction.call
      ++ ": victim transaction surrounded by attacker transactions"
  else
    "Front-running attempt detected: duplicate call to "
      ++ ctx.transaction.pallet ++ "." ++ ctx.transaction.call
      ++ " from competing sender"

/-- The indicators the method computes for a given prior history. -/
def indicatorsFor (history : List ParsedTransaction)
    (ctx : TransactionContext) : FrontRunningIndicators :=
  analyze_mempool_pattern (add_to_history history ctx.transaction) ctx

def analyze_transaction (history : List ParsedTransaction)
    (ctx : TransactionContext) : DetectionResult :=
  if calculate_confidence (indicatorsFor history ctx) ≥ 4/10 then
    DetectionResult.found (determine_pattern (indicatorsFor history ctx))
      (calculate_confidence (indicatorsFor history ctx))
      (frontDescription (indicatorsFor history ctx) ctx)
      (build_evidence (indicatorsFor history ctx) ctx)
  else DetectionResult.no_detection

end FrontRunningDetector

/-! ## VolumeAnomalyDetector
(`src/packages/monitoring-engine/src/detectors/volume.rs`) -/

namespace VolumeAnomalyDetector

/-- The additive suspicion score of `analyze_transaction`, term by term in
source order. -/
def suspicion_score (tx : ParsedTransaction) : ℚ :=
  (if strLower tx.pallet = "balances" then
    (3/10 : ℚ) + (if strContains tx.call "transfer" then 2/10 else 0)
   else 0)
  + (if strContains (strLower tx.pallet) "asset" then (4/10 : ℚ) else 0)
  + (if strLower tx.pallet = "staking" then (35/100 : ℚ) else 0)
  + (if strLower tx.pallet = "utility" ∧ strContains tx.call "batch"
      then (1/2 : ℚ) else 0)
  + (if strContains (strLower tx.pallet) "xcm" ||
        strContains (strLower tx.pallet) "xtokens" then (6/10 : ℚ) else 0)
  + (if tx.args.length > 3 then (2/10 : ℚ) else 0)

/-- The evidence strings of `analyze_transaction`, in source order. -/
def volumeEvidence (tx : ParsedTransaction) : List String :=
  (if strLower tx.pallet = "balances" then
    ["Balance operation detected: " ++ tx.call]
      ++ (if strContains tx.call "transfer" then
        ["Transfer operation - potential volume activity"] else [])
   else [])
  ++ (if strContains (strLower tx.pallet) "asset" then
      ["Asset-related transaction detected"] else [])
  ++ (if strLower tx.pallet = "staking" then
      ["Staking operation: " ++ tx.call] else [])
  ++ (if strLower tx.pallet = "utility" ∧ strContains tx.call "batch" then
      ["Batch transaction detected - multiple operations"] else [])
  ++ (if strContains (strLower tx.pallet) "xcm" ||
        strContains (strLower tx.pallet) "xtokens" then
      ["Cross-chain transfer detected"] else [])
  ++ (if tx.args.length > 3 then
      ["Complex transaction with " ++ toString tx.args.length ++ " arguments"]
     else [])

/-- `VolumeAnomalyDetector::analyze_transaction`: reported when the score is
strictly above 0.5, with the confidence capped at 0.95. -/
def analyze_transaction (ctx : TransactionContext) : DetectionResult :=
  if suspicion_score ctx.transaction > 1/2 then
    { detected := true
      confidence := min (suspicion_score ctx.transaction) (95/100)
      pattern := .VolumeAnomaly
      description := "Potentially suspicious volume activity detected in "
        ++ ctx.transaction.pallet ++ "::" ++ ctx.transaction.call
        ++ " transaction"
      evidence := volumeEvidence ctx.transaction }
  else DetectionResult.no_detection

end VolumeAnomalyDetector

/-- A borrow-or-loan event name (used by the Hydration detectors): lowercased
name contains `"borrow"` or `"loan"`. -/
def isBorrowLoanName (e : ChainEvent) : Bool :=
  strContains (strLower e.event_name) "borrow" ||
    strContains (strLower e.event_name) "loan"

/-! ## StateProofVerificationDetector
(`src/packages/monitoring-engine/src/detectors/hyperbridge.rs`, second
half) -/

namespace StateProofVerificationDetector

/-- The `StateProofIndicators` struct. -/
structure StateProofIndicators where
  has_state_proof : Bool
  has_consensus_proof : Bool
  proof_verification_failed : Bool
  multiple_proofs_same_height : Bool
  invalid_proof_structure : Bool
  suspicious_relayer : Bool
  deriving DecidableEq, Repr

/-- Event name marks a state-proof submission. -/
def isStateProofName (e : ChainEvent) : Bool :=
  strContains (strLower e.event_name) "stateproof" ||
    strContains (strLower e.event_name) "state_proof"

/-- Event name marks a consensus proof. -/
def isConsensusProofName (e : ChainEvent) : Bool :=
  strContains (strLower e.event_name) "consensusproof" ||
    strContains (strLower e.event_name) "consensus_proof"

/-- Event name marks a verification failure. -/
def isVerFailName (e : ChainEvent) : Bool :=
  strContains (strLower e.event_name) "verificationfailed" ||
    strContains (strLower e.event_name) "verification_failed" ||
    strContains (strLower e.event_name) "invalidproof"

/-- The mutable locals of this detector's `analyze_events` loop. -/
structure SpScan where
  has_state_proof : Bool := false
  has_consensus_proof : Bool := false
  proof_verification_failed : Bool := false
  proof_heights : List Nat := []
  invalid_proof_structure : Bool := false
  suspicious_relayer : Bool := false
  deriving DecidableEq, Repr

/-- The loop body: under the bridge-pallet guard, the four name tests; the
height is collected and the proof-structure check made only when
`event_data` is present, and the relayer flag reads `data.invalid`
defaulting to false. -/
def scanStep (s : SpScan) (e : ChainEvent) : SpScan :=
  if isBridgePallet e then
    let s :=
      if isStateProofName e then
        { s with
          has_state_proof := true
          proof_heights := s.proof_heights ++
            (e.event_data.bind (fun d => d.height)).toList
          invalid_proof_structure := s.invalid_proof_structure ||
            (match e.event_data with
             | some d => !d.proof_present
             | none => false) }
      else s
    let s :=
      if isConsensusProofName e then { s with has_consensus_proof := true }
      else s
    let s :=
      if isVerFailName e then { s with proof_verification_failed := true }
      else s
    let s :=
      if strContains (strLower e.event_name) "relayer" then
        { s with suspicious_relayer := s.suspicious_relayer ||
            (match e.event_data with
             | some d => d.invalid.getD false
             | none => false) }
      else s
    s
  else s

/-- `StateProofVerificationDetector::analyze_events`. -/
def analyze_events (ctx : TransactionContext) : StateProofIndicators :=
  let s := ctx.events.foldl scanStep {}
  { has_state_proof := s.has_state_proof
    has_consensus_proof := s.has_consensus_proof
    proof_verification_failed := s.proof_verification_failed
    multiple_proofs_same_height :=
      s.proof_heights.dedup.any (fun h => decide (2 ≤ s.proof_heights.count h))
    invalid_proof_structure := s.invalid_proof_structure
    suspicious_relayer := s.suspicious_relayer }

/-- `StateProofVerificationDetector::calculate_confidence`. -/
def calculate_confidence (ind : StateProofIndicators) : ℚ :=
  min ((if ind.proof_verification_failed then (7/10 : ℚ) else 0)
    + (if ind.multiple_proofs_same_height then (1/2 : ℚ) else 0)
    + (if ind.invalid_proof_structure then (4/10 : ℚ) else 0)
    + (if ind.suspicious_relayer then (3/10 : ℚ) else 0)) 1

/-- `StateProofVerificationDetector::build_evidence`. -/
def build_evidence (ind : StateProofIndicators) : List String :=
  (if ind.proof_verification_failed then
    ["State proof verification failed"] else [])
  ++ (if ind.multiple_proofs_same_height then
      ["Multiple proofs submitted for the same block height"] else [])
  ++ (if ind.invalid_proof_structure then
      ["Invalid or malformed proof structure detected"] else [])
  ++ (if ind.suspicious_relayer then
      ["Suspicious relayer behavior detected"] else [])

/-- `StateProofVerificationDetector::analyze_transaction` for the detector as
constructed by `new()` (`enabled == true`). -/
def analyze_transaction (ctx : TransactionContext) : DetectionResult :=
  if (analyze_events ctx).has_state_proof = false ∧
      (analyze_events ctx).has_consensus_proof = false then
    DetectionResult.safe
  else
    { detected := decide (calculate_confidence (analyze_events ctx) > 1/2)
      confidence := calculate_confidence (analyze_events ctx)
      pattern := .StateProofManipulation
      description :=
        if calculate_confidence (analyze_events ctx) > 1/2 then
          "Suspicious state proof activity detected. Potential proof manipulation or invalid consensus proof."
        else "State proof verification appears normal."
      evidence := build_evidence (analyze_events ctx) }

end StateProofVerificationDetector

/-! ## OmnipoolManipulationDetector
(`src/packages/monitoring-engine/src/detectors/hydration.rs`) -/

namespace OmnipoolManipulationDetector

/-- The `OmnipoolIndicators` struct. -/
structure OmnipoolIndicators where
  has_swap : Bool
  has_add_liquidity : Bool
  has_remove_liquidity : Bool
  swap_count : Nat
  large_price_impact : Bool
  flash_loan_pattern : Bool
  rapid_swaps : Bool
  oracle_deviation : Bool
  deriving DecidableEq, Repr

/-- An Omnipool/Hydration pallet. -/
def isOmniPallet (e : ChainEvent) : Bool :=
  strContains (strLower e.pallet) "omnipool" ||
    strContains (strLower e.pallet) "hydration"

/-- A swap/trade event name. -/
def isSwapTradeName (e : ChainEvent) : Bool :=
  strContains (strLower e.event_name) "swap" ||
    strContains (strLower e.event_name) "trade"

/-- An add-liquidity event name. -/
def isAddLiqName (e : ChainEvent) : Bool :=
  strContains (strLower e.event_name) "addliquidity" ||
    strContains (strLower e.event_name) "add_liquidity"

/-- A remove-liquidity event name. -/
def isRemoveLiqName (e : ChainEvent) : Bool :=
  strContains (strLower e.event_name) "removeliquidity" ||
    strContains (strLower e.event_name) "remove_liquidity"

/-- The mutable locals of this detector's `analyze_events` loop. -/
structure OmniScan where
  has_swap : Bool := false
  has_add_liquidity : Bool := false
  has_remove_liquidity : Bool := false
  swap_count : Nat := 0
  large_price_impact : Bool := false
  flash_loan_pattern : Bool := false
  oracle_deviation : Bool := false
  deriving DecidableEq, Repr

/-- The loop body.  The flash-loan test sits outside the pallet guard and
re-scans the whole event list for a repay-like event; the price-impact and
oracle-deviation flags fire when the respective `event_data` fields exceed
0.05 and 0.03. -/
def scanStep (ctx : TransactionContext) (s : OmniScan) (e : ChainEvent) :
    OmniScan :=
  let s :=
    if isOmniPallet e then
      let s :=
        if isSwapTradeName e then
          { s with
            has_swap := true
            swap_count := s.swap_count + 1
            large_price_impact := s.large_price_impact ||
              (match e.event_data.bind (fun d => d.price_impact) with
               | some v => decide (v > 5/100)
               | none => false)
            oracle_deviation := s.oracle_deviation ||
              (match e.event_data.bind (fun d => d.oracle_deviation) with
               | some v => decide (v > 3/100)
               | none => false) }
        else s
      let s := if isAddLiqName e then { s with has_add_liquidity := true } else s
      let s :=
        if isRemoveLiqName e then { s with has_remove_liquidity := true }
        else s
      s
    else s
  if isBorrowLoanName e then
    if ctx.events.any (fun e2 => isRepayEvent e2) then
      { s with flash_loan_pattern := true }
    else s
  else s

/-- `OmnipoolManipulationDetector::analyze_events`. -/
def analyze_events (ctx : TransactionContext) : OmnipoolIndicators :=
  let s := ctx.events.foldl (scanStep ctx) {}
  { has_swap := s.has_swap
    has_add_liquidity := s.has_add_liquidity
    has_remove_liquidity := s.has_remove_liquidity
    swap_count := s.swap_count
    large_price_impact := s.large_price_impact
    flash_loan_pattern := s.flash_loan_pattern
    rapid_swaps := decide (s.swap_count > 2)
    oracle_deviation := s.oracle_deviation }

/-- `OmnipoolManipulationDetector::calculate_confidence`. -/
def calculate_confidence (ind : OmnipoolIndicators) : ℚ :=
  min ((if ind.flash_loan_pattern && ind.has_swap then (6/10 : ℚ) else 0)
    + (if ind.large_price_impact then (3/10 : ℚ) else 0)
    + (if ind.rapid_swaps then (25/100 : ℚ) else 0)
    + (if ind.oracle_deviation then (2/10 : ℚ) else 0)
    + (if ind.has_add_liquidity && ind.has_remove_liquidity
        then (15/100 : ℚ) else 0)) 1

/-- `OmnipoolManipulationDetector::build_evidence`. -/
def build_evidence (ind : OmnipoolIndicators) : List String :=
  (if ind.flash_loan_pattern && ind.has_swap then
    ["Flash loan combined with Omnipool swap (potential price manipulation)"]
   else [])
  ++ (if ind.large_price_impact then
      ["Large price impact detected (>5%)"] else [])
  ++ (if ind.rapid_swaps then
      [toString ind.swap_count
        ++ " swaps in single transaction (potential sandwich attack)"]
     else [])
  ++ (if ind.oracle_deviation then
      ["Oracle price deviation detected (>3%)"] else [])
  ++ (if ind.has_add_liquidity && ind.has_remove_liquidity then
      ["Liquidity added and removed in same transaction"] else [])

/-- `OmnipoolManipulationDetector::analyze_transaction` for the detector as
constructed by `new()` (`enabled == true`). -/
def analyze_transaction (ctx : TransactionContext) : DetectionResult :=
  if (analyze_events ctx).has_swap = false ∧
      (analyze_events ctx).has_add_liquidity = false ∧
      (analyze_events ctx).has_remove_liquidity = false then
    DetectionResult.safe
  else
    { detected := decide (calculate_confidence (analyze_events ctx) > 1/2)
      confidence := calculate_confidence (analyze_events ctx)
      pattern := .OmnipoolManipulation
      description :=
        if calculate_confidence (analyze_events ctx) > 1/2 then
          "Suspicious Omnipool activity detected. Potential sandwich attack, flash loan manipulation, or oracle exploitation."
        else "Omnipool activity appears normal."
      evidence := build_evidence (analyze_events ctx) }

end OmnipoolManipulationDetector

/-! ## LiquidityDrainDetector (`hydration.rs`) -/

namespace LiquidityDrainDetector

/-- The `LiquidityDrainIndicators` struct. -/
structure LiquidityDrainIndicators where
  large_withdrawal : Bool
  multiple_withdrawals : Nat
  rapid_succession : Bool
  pool_depletion_risk : Bool
  suspicious_timing : Bool
  deriving DecidableEq, Repr

/-- An Omnipool/Hydration/liquidity pallet. -/
def isLiqPallet (e : ChainEvent) : Bool :=
  strContains (strLower e.pallet) "omnipool" ||
    strContains (strLower e.pallet) "hydration" ||
    strContains (strLower e.pallet) "liquidity"

/-- A liquidity-removal/withdrawal event name. -/
def isWithdrawName (e : ChainEvent) : Bool :=
  strContains (strLower e.event_name) "removeliquidity" ||
    strContains (strLower e.event_name) "remove_liquidity" ||
    strContains (strLower e.event_name) "withdraw"

/-- The mutable locals of this detector's `analyze_events` loop. -/
structure DrainScan where
  withdrawal_count : Nat := 0
  large_withdrawal : Bool := false
  pool_depletion_risk : Bool := false
  suspicious_timing : Bool := false
  deriving DecidableEq, Repr

/-- The loop body: the amount threshold is 1,000,000, the remaining-liquidity
threshold 100,000, and `suspicious_timing` is **overwritten** (not or-ed)
whenever the event carries the field, as in the source's plain
assignment. -/
def scanStep (s : DrainScan) (e : ChainEvent) : DrainScan :=
  if isLiqPallet e then
    if isWithdrawName e then
      { withdrawal_count := s.withdrawal_count + 1
        large_withdrawal := s.large_withdrawal ||
          (match e.event_data.bind (fun d => d.amount) with
           | some v => decide (v > 1000000)
           | none => false)
        pool_depletion_risk := s.pool_depletion_risk ||
          (match e.event_data.bind (fun d => d.remaining_liquidity) with
           | some v => decide (v < 100000)
           | none => false)
        suspicious_timing :=
          match e.event_data.bind (fun d => d.suspicious_timing) with
          | some b => b
          | none => s.suspicious_timing }
    else s
  else s

/-- `LiquidityDrainDetector::analyze_events`. -/
def analyze_events (ctx : TransactionContext) : LiquidityDrainIndicators :=
  let s := ctx.events.foldl scanStep {}
  { large_withdrawal := s.large_withdrawal
    multiple_withdrawals := s.withdrawal_count
    rapid_succession := decide (s.withdrawal_count > 1)
    pool_depletion_risk := s.pool_depletion_risk
    suspicious_timing := s.suspicious_timing }

/-- `LiquidityDrainDetector::calculate_confidence`. -/
def calculate_confidence (ind : LiquidityDrainIndicators) : ℚ :=
  min ((if ind.large_withdrawal then (4/10 : ℚ) else 0)
    + (if ind.rapid_succession then (3/10 : ℚ) else 0)
    + (if ind.pool_depletion_risk then (4/10 : ℚ) else 0)
    + (if ind.suspicious_timing then (2/10 : ℚ) else 0)) 1

/-- `LiquidityDrainDetector::build_evidence`. -/
def build_evidence (ind : LiquidityDrainIndicators) : List String :=
  (if ind.large_withdrawal then
    ["Large liquidity withdrawal detected"] else [])
  ++ (if ind.rapid_succession then
      [toString ind.multiple_withdrawals
        ++ " withdrawals in single transaction"] else [])
  ++ (if ind.pool_depletion_risk then
      ["Pool depletion risk - remaining liquidity critically low"] else [])
  ++ (if ind.suspicious_timing then
      ["Withdrawal timing appears suspicious"] else [])

/-- `LiquidityDrainDetector::analyze_transaction` for the detector as
constructed by `new()` (`enabled == true`). -/
def analyze_transaction (ctx : TransactionContext) : DetectionResult :=
  if (analyze_events ctx).multiple_withdrawals = 0 then
    DetectionResult.safe
  else
    { detected := decide (calculate_confidence (analyze_events ctx) > 1/2)
      confidence := calculate_confidence (analyze_events ctx)
      pattern := .LiquidityDrain
      description :=
        if calculate_confidence (analyze_events ctx) > 1/2 then
          "Suspicious liquidity withdrawal pattern detected. Potential liquidity drain or rug pull attempt."
        else "Liquidity withdrawal appears normal."
      evidence := build_evidence (analyze_events ctx) }

end LiquidityDrainDetector

/-! ## CollateralManipulationDetector (`hydration.rs`) -/

namespace CollateralManipulationDetector

/-- The `CollateralIndicators` struct. -/
structure CollateralIndicators where
  has_liquidation : Bool
  liquidation_count : Nat
  has_collateral_change : Bool
  health_factor_drop : Bool
  flash_loan_liquidation : Bool
  cascade_risk : Bool
  deriving DecidableEq, Repr

/-- A lending/loan/collateral pallet. -/
def isCollPallet (e : ChainEvent) : Bool :=
  strContains (strLower e.pallet) "lending" ||
    strContains (strLower e.pallet) "loan" ||
    strContains (strLower e.pallet) "collateral"

/-- The pre-loop flash-loan probe: some borrow-or-loan event together with
some event whose name contains `"repay"` (only; this detector does not test
`"repaid"` separately). -/
def has_flash_loan (ctx : TransactionContext) : Bool :=
  ctx.events.any (fun e =>
    isBorrowLoanName e &&
      ctx.events.any (fun e2 => strContains (strLower e2.event_name) "repay"))

/-- The mutable locals of this detector's `analyze_events` loop. -/
structure CollScan where
  has_liquidation : Bool := false
  liquidation_count : Nat := 0
  has_collateral_change : Bool := false
  health_factor_drop : Bool := false
  flash_loan_liquidation : Bool := false
  cascade_risk : Bool := false
  deriving DecidableEq, Repr

/-- The loop body: on a liquidation event the flash-loan flag is set when
the probe fired, and `cascade_risk` is **overwritten** whenever the event
carries the field; on a collateral event the health-factor drop test is
`before - after > 0.3`. -/
def scanStep (hfl : Bool) (s : CollScan) (e : ChainEvent) : CollScan :=
  if isCollPallet e then
    let s :=
      if strContains (strLower e.event_name) "liquidat" then
        { s with
          has_liquidation := true
          liquidation_count := s.liquidation_count + 1
          flash_loan_liquidation := s.flash_loan_liquidation || hfl
          cascade_risk :=
            match e.event_data.bind (fun d => d.cascade_risk) with
            | some b => b
            | none => s.cascade_risk }
      else s
    let s :=
      if strContains (strLower e.event_name) "collateral" then
        { s with
          has_collateral_change := true
          health_factor_drop := s.health_factor_drop ||
            (match e.event_data with
             | some d =>
               match d.health_factor_before, d.health_factor_after with
               | some hb, some ha => decide (hb - ha > 3/10)
               | _, _ => false
             | none => false) }
      else s
    s
  else s

/-- `CollateralManipulationDetector::analyze_events`. -/
def analyze_events (ctx : TransactionContext) : CollateralIndicators :=
  let s := ctx.events.foldl (scanStep (has_flash_loan ctx)) {}
  { has_liquidation := s.has_liquidation
    liquidation_count := s.liquidation_count
    has_collateral_change := s.has_collateral_change
    health_factor_drop := s.health_factor_drop
    flash_loan_liquidation := s.flash_loan_liquidation
    cascade_risk := s.cascade_risk }

/-- `CollateralManipulationDetector::calculate_confidence`. -/
def calculate_confidence (ind : CollateralIndicators) : ℚ :=
  min ((if ind.flash_loan_liquidation then (7/10 : ℚ) else 0)
    + (if ind.liquidation_count > 1 then (4/10 : ℚ) else 0)
    + (if ind.cascade_risk then (1/2 : ℚ) else 0)
    + (if ind.health_factor_drop then (3/10 : ℚ) else 0)) 1

/-- `CollateralManipulationDetector::build_evidence`. -/
def build_evidence (ind : CollateralIndicators) : List String :=
  (if ind.flash_loan_liquidation then
    ["Flash loan used in combination with liquidation (potential manipulation)"]
   else [])
  ++ (if ind.liquidation_count > 1 then
      [toString ind.liquidation_count ++ " liquidations in single transaction"]
     else [])
  ++ (if ind.cascade_risk then
      ["Liquidation cascade risk detected"] else [])
  ++ (if ind.health_factor_drop then
      ["Significant health factor drop detected (>30%)"] else [])

/-- `CollateralManipulationDetector::analyze_transaction` for the detector
as constructed by `new()` (`enabled == true`). -/
def analyze_transaction (ctx : TransactionContext) : DetectionResult :=
  if (analyze_events ctx).has_liquidation = false ∧
      (analyze_events ctx).has_collateral_change = false then
    DetectionResult.safe
  else
    { detected := decide (calculate_confidence (analyze_events ctx) > 1/2)
      confidence := calculate_confidence (analyze_events ctx)
      pattern := .CollateralManipulation
      description :=
        if calculate_confidence (analyze_events ctx) > 1/2 then
          "Suspicious collateral/liquidation activity detected. Potential flash loan liquidation or cascade manipulation."
        else "Collateral activity appears normal."
      evidence := build_evidence (analyze_events ctx) }

end CollateralManipulationDetector

/-! ### Confidence bounds across detectors (claim C5) -/

theorem flash_conf_bounds (ind : FlashLoanDetector.FlashLoanIndicators) :
    0 ≤ FlashLoanDetector.calculate_confidence ind ∧
      FlashLoanDetector.calculate_confidence ind ≤ 1 := by
  unfold FlashLoanDetector.calculate_confidence
  constructor
  · refine le_min ?_ (by norm_num)
    split_ifs <;> positivity
  · exact min_le_right _ _

theorem front_conf_bounds (ind : FrontRunningDetector.FrontRunningIndicators) :
    0 ≤ FrontRunningDetector.calculate_confidence ind ∧
      FrontRunningDetector.calculate_confidence ind ≤ 1 := by
  unfold FrontRunningDetector.calculate_confidence
  constructor
  · refine le_min ?_ (by norm_num)
    split_ifs <;> positivity
  · exact min_le_right _ _

theorem bridge_conf_bounds
    (ind : CrossChainBridgeDetector.CrossChainIndicators) :
    0 ≤ CrossChainBridgeDetector.calculate_confidence ind ∧
      CrossChainBridgeDetector.calculate_confidence ind ≤ 1 := by
  unfold CrossChainBridgeDetector.calculate_confidence
  constructor
  · refine le_min ?_ (by norm_num)
    split_ifs <;> norm_num
  · exact min_le_right _ _

theorem volume_score_nonneg (tx : ParsedTransaction) :
    0 ≤ VolumeAnomalyDetector.suspicion_score tx := by
  unfold VolumeAnomalyDetector.suspicion_score
  split_ifs <;> norm_num

theorem stateproof_conf_bounds
    (ind : StateProofVerificationDetector.StateProofIndicators) :
    0 ≤ StateProofVerificationDetector.calculate_confidence ind ∧
      StateProofVerificationDetector.calculate_confidence ind ≤ 1 := by
  unfold StateProofVerificationDetector.calculate_confidence
  constructor
  · refine le_min ?_ (by norm_num)
    split_ifs <;> norm_num
  · exact min_le_right _ _

theorem omnipool_conf_bounds
    (ind : OmnipoolManipulationDetector.OmnipoolIndicators) :
    0 ≤ OmnipoolManipulationDetector.calculate_confidence ind ∧
      OmnipoolManipulationDetector.calculate_confidence ind ≤ 1 := by
  unfold OmnipoolManipulationDetector.calculate_confidence
  constructor
  · refine le_min ?_ (by norm_num)
    split_ifs <;> norm_num
  · exact min_le_right _ _

theorem drain_conf_bounds
    (ind : LiquidityDrainDetector.LiquidityDrainIndicators) :
    0 ≤ LiquidityDrainDetector.calculate_confidence ind ∧
      LiquidityDrainDetector.calculate_confidence ind ≤ 1 := by
  unfold LiquidityDrainDetector.calculate_confidence
  constructor
  · refine le_min ?_ (by norm_num)
    split_ifs <;> norm_num
  · exact min_le_right _ _

theorem collateral_conf_bounds
    (ind : CollateralManipulationDetector.CollateralIndicators) :
    0 ≤ CollateralManipulationDetector.calculate_confidence ind ∧
      CollateralManipulationDetector.calculate_confidence ind ≤ 1 := by
  unfold CollateralManipulationDetector.calculate_confidence
  constructor
  · refine le_min ?_ (by norm_num)
    split_ifs <;> norm_num
  · exact min_le_right _ _

namespace MevDetector

/-- The invariant every indicator value stored by the three passes
satisfies: confidence between the common 0.5 floor and 1. -/
def goodConf (v : MevIndicators) : Prop :=
  1/2 ≤ v.confidence ∧ v.confidence ≤ 1

theorem lookup_mapInsert_cases {m : MevMap} {j : Nat} {w : MevIndicators}
    {k : Nat} {v : MevIndicators}
    (h : mapLookup k (mapInsert m j w) = some v) :
    v = w ∨ mapLookup k m = some v := by
  unfold mapInsert mapLookup at h
  by_cases hjk : j = k
  · rw [if_pos hjk] at h
    exact Or.inl (Option.some.inj h).symm
  · rw [if_neg hjk] at h
    exact Or.inr h

theorem sandwichIndicators_good (b mid a : TransactionContext) :
    goodConf (sandwichIndicators b mid a) := by
  unfold goodConf sandwichIndicators sandwichConf
  constructor
  · refine le_min ?_ (by norm_num)
    split_ifs <;> norm_num
  · exact min_le_right _ _

theorem frontIndicators_good (current next : TransactionContext) :
    goodConf (frontIndicators current next) := by
  unfold goodConf frontIndicators frontConf
  constructor
  · refine le_min ?_ (by norm_num)
    split_ifs <;> norm_num
  · exact min_le_right _ _

theorem backIndicators_good : goodConf backIndicators := by
  unfold goodConf backIndicators
  norm_num

theorem windowFires_good {ctxs : List TransactionContext} {i : Nat}
    {v : MevIndicators} (h : windowFires ctxs i = some v) : goodConf v := by
  unfold windowFires at h
  split at h
  · split at h
    · rw [← Option.some.inj h]
      exact sandwichIndicators_good _ _ _
    · cases h
  · cases h

theorem sandwichStep_good {ctxs : List TransactionContext} {m : MevMap}
    {i : Nat} (hm : ∀ k v, mapLookup k m = some v → goodConf v) :
    ∀ k v, mapLookup k (sandwichStep ctxs m i) = some v → goodConf v := by
  intro k v h
  unfold sandwichStep at h
  cases hw : windowFires ctxs i with
  | none => rw [hw] at h; exact hm k v h
  | some w =>
    rw [hw] at h
    rcases lookup_mapInsert_cases h with rfl | h
    · exact windowFires_good hw
    rcases lookup_mapInsert_cases h with rfl | h
    · exact windowFires_good hw
    rcases lookup_mapInsert_cases h with rfl | h
    · exact windowFires_good hw
    exact hm k v h

theorem frontStep_good {ctxs : List TransactionContext} {m : MevMap}
    {i : Nat} (hm : ∀ k v, mapLookup k m = some v → goodConf v) :
    ∀ k v, mapLookup k (frontStep ctxs m i) = some v → goodConf v := by
  intro k v h
  unfold frontStep at h
  by_cases hc : mapContains m i
  · rw [if_pos hc] at h; exact hm k v h
  · rw [if_neg hc] at h
    split at h
    · split_ifs at h
      · rcases lookup_mapInsert_cases h with rfl | h
        · exact frontIndicators_good _ _
        · exact hm k v h
      · exact hm k v h
    · exact hm k v h

theorem backStep_good {ctxs : List TransactionContext} {m : MevMap}
    {i : Nat} (hm : ∀ k v, mapLookup k m = some v → goodConf v) :
    ∀ k v, mapLookup k (backStep ctxs m i) = some v → goodConf v := by
  intro k v h
  unfold backStep at h
  by_cases hf : backPairFires ctxs i = true
  · rw [if_pos hf] at h
    rcases lookup_mapInsert_cases h with rfl | h
    · exact backIndicators_good
    · exact hm k v h
  · rw [if_neg hf] at h; exact hm k v h

theorem foldl_good {step : MevMap → Nat → MevMap}
    (hstep : ∀ m i, (∀ k v, mapLookup k m = some v → goodConf v) →
      ∀ k v, mapLookup k (step m i) = some v → goodConf v)
    (idxs : List Nat) (m : MevMap)
    (hm : ∀ k v, mapLookup k m = some v → goodConf v) :
    ∀ k v, mapLookup k (idxs.foldl step m) = some v → goodConf v := by
  induction idxs generalizing m with
  | nil => exact hm
  | cons j rest ih => exact ih (step m j) (hstep m j hm)

theorem analyze_batch_for_mev_good (ctxs : List TransactionContext) :
    ∀ k v, mapLookup k (analyze_batch_for_mev ctxs) = some v → goodConf v := by
  unfold analyze_batch_for_mev
  split_ifs
  · intro k v h; cases h
  · unfold detect_backrunning detect_frontrunning detect_sandwich_attacks
    refine foldl_good (fun m i => backStep_good) _ _ ?_
    refine foldl_good (fun m i => frontStep_good) _ _ ?_
    refine foldl_good (fun m i => sandwichStep_good) _ _ ?_
    intro k v h; cases h

end MevDetector

/-- C5: for every detector and every input, the returned `DetectionResult`
has confidence in [0, 1], and `detected == true` only when the confidence
meets the detector's documented reporting floor: 0.3 for the flash-loan
detector, 0.4 for the single-transaction front-running detector (over any
rolling history), and 0.5 for the volume, cross-chain bridge, state-proof,
Omnipool, liquidity-drain, collateral and MEV detectors (the MEV
single-transaction path always returns the zero no-detection result). -/
theorem detector_result_invariants :
    (∀ ctx : TransactionContext,
      0 ≤ (FlashLoanDetector.analyze_transaction ctx).confidence ∧
      (FlashLoanDetector.analyze_transaction ctx).confidence ≤ 1 ∧
      ((FlashLoanDetector.analyze_transaction ctx).detected = true →
        3/10 ≤ (FlashLoanDetector.analyze_transaction ctx).confidence)) ∧
    (∀ (history : List ParsedTransaction) (ctx : TransactionContext),
      0 ≤ (FrontRunningDetector.analyze_transaction history ctx).confidence ∧
      (FrontRunningDetector.analyze_transaction history ctx).confidence ≤ 1 ∧
      ((FrontRunningDetector.analyze_transaction history ctx).detected = true →
        4/10 ≤ (FrontRunningDetector.analyze_transaction history ctx).confidence)) ∧
    (∀ ctx : TransactionContext,
      0 ≤ (VolumeAnomalyDetector.analyze_transaction ctx).confidence ∧
      (VolumeAnomalyDetector.analyze_transaction ctx).confidence ≤ 1 ∧
      ((VolumeAnomalyDetector.analyze_transaction ctx).detected = true →
        1/2 ≤ (VolumeAnomalyDetector.analyze_transaction ctx).confidence)) ∧
    (∀ ctx : TransactionContext,
      0 ≤ (CrossChainBridgeDetector.analyze_transaction ctx).confidence ∧
      (CrossChainBridgeDetector.analyze_transaction ctx).confidence ≤ 1 ∧
      ((CrossChainBridgeDetector.analyze_transaction ctx).detected = true →
        1/2 ≤ (CrossChainBridgeDetector.analyze_transaction ctx).confidence)) ∧
    (∀ ctx : TransactionContext,
      MevDetector.analyze_transaction ctx = DetectionResult.no_detection) ∧
    (∀ ctxs : List TransactionContext,
      ∀ r ∈ MevDetector.analyze_batch ctxs,
        0 ≤ r.confidence ∧ r.confidence ≤ 1 ∧
        (r.detected = true → 1/2 ≤ r.confidence)) ∧
    (∀ ctx : TransactionContext,
      0 ≤ (StateProofVerificationDetector.analyze_transaction ctx).confidence ∧
      (StateProofVerificationDetector.analyze_transaction ctx).confidence ≤ 1 ∧
      ((StateProofVerificationDetector.analyze_transaction ctx).detected = true →
        1/2 ≤ (StateProofVerificationDetector.analyze_transaction ctx).confidence)) ∧
    (∀ ctx : TransactionContext,
      0 ≤ (OmnipoolManipulationDetector.analyze_transaction ctx).confidence ∧
      (OmnipoolManipulationDetector.analyze_transaction ctx).confidence ≤ 1 ∧
      ((OmnipoolManipulationDetector.analyze_transaction ctx).detected = true →
        1/2 ≤ (OmnipoolManipulationDetector.analyze_transaction ctx).confidence)) ∧
    (∀ ctx : TransactionContext,
      0 ≤ (LiquidityDrainDetector.analyze_transaction ctx).confidence ∧
      (LiquidityDrainDetector.analyze_transaction ctx).confidence ≤ 1 ∧
      ((LiquidityDrainDetector.analyze_transaction ctx).detected = true →
        1/2 ≤ (LiquidityDrainDetector.analyze_transaction ctx).confidence)) ∧
    (∀ ctx : TransactionContext,
      0 ≤ (CollateralManipulationDetector.analyze_transaction ctx).confidence ∧
      (CollateralManipulationDetector.analyze_transaction ctx).confidence ≤ 1 ∧
      ((CollateralManipulationDetector.analyze_transaction ctx).detected = true →
        1/2 ≤ (CollateralManipulationDetector.analyze_transaction ctx).confidence)) := by
  refine ⟨?_, ?_, ?_, ?_, fun _ => rfl, ?_, ?_, ?_, ?_, ?_⟩
  · intro ctx
    unfold FlashLoanDetector.analyze_transaction
    obtain ⟨h0, h1⟩ := flash_conf_bounds (FlashLoanDetector.analyze_events ctx)
    split_ifs with hc
    · exact ⟨h0, h1, fun _ => hc⟩
    · exact ⟨le_refl 0, by norm_num [DetectionResult.no_detection],
        by simp [DetectionResult.no_detection]⟩
  · intro history ctx
    unfold FrontRunningDetector.analyze_transaction
    obtain ⟨h0, h1⟩ := front_conf_bounds
      (FrontRunningDetector.indicatorsFor history ctx)
    split_ifs with hc
    · exact ⟨h0, h1, fun _ => hc⟩
    · exact ⟨le_refl 0, by norm_num [DetectionResult.no_detection],
        by simp [DetectionResult.no_detection]⟩
  · intro ctx
    unfold VolumeAnomalyDetector.analyze_transaction
    split_ifs with hc
    · refine ⟨le_min (volume_score_nonneg _) (by norm_num),
        le_trans (min_le_right _ _) (by norm_num),
        fun _ => le_min (le_of_lt hc) (by norm_num)⟩
    · exact ⟨le_refl 0, by norm_num [DetectionResult.no_detection],
        by simp [DetectionResult.no_detection]⟩
  · intro ctx
    unfold CrossChainBridgeDetector.analyze_transaction
    obtain ⟨h0, h1⟩ := bridge_conf_bounds
      (CrossChainBridgeDetector.analyze_events ctx)
    by_cases hg : (CrossChainBridgeDetector.analyze_events ctx).request_count = 0 ∧
        (CrossChainBridgeDetector.analyze_events ctx).response_count = 0
    · rw [if_pos hg]
      exact ⟨le_refl 0,
        by norm_num [DetectionResult.safe, DetectionResult.no_detection],
        by simp [DetectionResult.safe, DetectionResult.no_detection]⟩
    · rw [if_neg hg]
      refine ⟨h0, h1, fun hdet => ?_⟩
      simp only [decide_eq_true_eq] at hdet
      exact le_of_lt hdet
  · intro ctxs r hr
    unfold MevDetector.analyze_batch at hr
    obtain ⟨idx, -, rfl⟩ := List.mem_map.mp hr
    unfold MevDetector.resultFor
    cases hl : MevDetector.mapLookup idx (MevDetector.analyze_batch_for_mev ctxs) with
    | none =>
      exact ⟨le_refl 0, by norm_num [DetectionResult.no_detection],
        by simp [DetectionResult.no_detection]⟩
    | some v =>
      obtain ⟨hv1, hv2⟩ := MevDetector.analyze_batch_for_mev_good ctxs idx v hl
      exact ⟨le_trans (by norm_num) hv1, hv2, fun _ => hv1⟩
  · intro ctx
    unfold StateProofVerificationDetector.analyze_transaction
    obtain ⟨h0, h1⟩ := stateproof_conf_bounds
      (StateProofVerificationDetector.analyze_events ctx)
    by_cases hg : (StateProofVerificationDetector.analyze_events
          ctx).has_state_proof = false ∧
        (StateProofVerificationDetector.analyze_events
          ctx).has_consensus_proof = false
    · rw [if_pos hg]
      exact ⟨le_refl 0,
        by norm_num [DetectionResult.safe, DetectionResult.no_detection],
        by simp [DetectionResult.safe, DetectionResult.no_detection]⟩
    · rw [if_neg hg]
      refine ⟨h0, h1, fun hdet => ?_⟩
      simp only [decide_eq_true_eq] at hdet
      exact le_of_lt hdet
  · intro ctx
    unfold OmnipoolManipulationDetector.analyze_transaction
    obtain ⟨h0, h1⟩ := omnipool_conf_bounds
      (OmnipoolManipulationDetector.analyze_events ctx)
    by_cases hg : (OmnipoolManipulationDetector.analyze_events
          ctx).has_swap = false ∧
        (OmnipoolManipulationDetector.analyze_events
          ctx).has_add_liquidity = false ∧
        (OmnipoolManipulationDetector.analyze_events
          ctx).has_remove_liquidity = false
    · rw [if_pos hg]
      exact ⟨le_refl 0,
        by norm_num [DetectionResult.safe, DetectionResult.no_detection],
        by simp [DetectionResult.safe, DetectionResult.no_detection]⟩
    · rw [if_neg hg]
      refine ⟨h0, h1, fun hdet => ?_⟩
      simp only [decide_eq_true_eq] at hdet
      exact le_of_lt hdet
  · intro ctx
    unfold LiquidityDrainDetector.analyze_transaction
    obtain ⟨h0, h1⟩ := drain_conf_bounds
      (LiquidityDrainDetector.analyze_events ctx)
    by_cases hg : (LiquidityDrainDetector.analyze_events
        ctx).multiple_withdrawals = 0
    · rw [if_pos hg]
      exact ⟨le_refl 0,
        by norm_num [DetectionResult.safe, DetectionResult.no_detection],
        by simp [DetectionResult.safe, DetectionResult.no_detection]⟩
    · rw [if_neg hg]
      refine ⟨h0, h1, fun hdet => ?_⟩
      simp only [decide_eq_true_eq] at hdet
      exact le_of_lt hdet
  · intro ctx
    unfold CollateralManipulationDetector.analyze_transaction
    obtain ⟨h0, h1⟩ := collateral_conf_bounds
      (CollateralManipulationDetector.analyze_events ctx)
    by_cases hg : (CollateralManipulationDetector.analyze_events
          ctx).has_liquidation = false ∧
        (CollateralManipulationDetector.analyze_events
          ctx).has_collateral_change = false
    · rw [if_pos hg]
      exact ⟨le_refl 0,
        by norm_num [DetectionResult.safe, DetectionResult.no_detection],
        by simp [DetectionResult.safe, DetectionResult.no_detection]⟩
    · rw [if_neg hg]
      refine ⟨h0, h1, fun hdet => ?_⟩
      simp only [decide_eq_true_eq] at hdet
      exact le_of_lt hdet

/-- A utility batch transaction with more than three arguments: volume score
0.7, reported. -/
def ctxVolW : TransactionContext :=
  { transaction :=
      { hash := "0xvw", block_number := 3, block_hash := "0xb", index := 1,
        caller := "V", pallet := "Utility", call := "batch_all",
        args := [1, 2, 3, 4] }
    events := [], state_changes := [] }

/-- Witness for C5: the volume detector reports `ctxVolW` and its confidence
indeed sits at or above the 0.5 floor. -/
theorem detector_result_invariants_witness :
    1/2 ≤ (VolumeAnomalyDetector.analyze_transaction ctxVolW).confidence := by
  have hs : VolumeAnomalyDetector.suspicion_score ctxVolW.transaction = 7/10 := by
    unfold VolumeAnomalyDetector.suspicion_score
    rw [if_neg (by decide), if_neg (by decide), if_neg (by decide),
      if_pos (by decide), if_neg (by decide), if_pos (by decide)]
    norm_num
  have hdet : (VolumeAnomalyDetector.analyze_transaction ctxVolW).detected = true := by
    unfold VolumeAnomalyDetector.analyze_transaction
    rw [if_pos (by rw [hs]; norm_num)]
  exact (detector_result_invariants.2.2.1 ctxVolW).2.2 hdet

/-! ## ConnectionManager
(`src/packages/monitoring-engine/src/connection.rs`).  The network is
abstracted by an oracle `Nat → Bool` giving the outcome of the k-th
`connect()` call; sleeps are collected as a list of their durations in
seconds. -/

namespace ConnectionManager

/-- The observable state: stored client present, reconnect-attempt counter,
reconnect flag (`ConnectionManager::new` starts disconnected, 0, true). -/
structure ConnState where
  connected : Bool := false
  reconnect_attempts : Nat := 0
  should_reconnect : Bool := true
  deriving DecidableEq, Repr

/-- `ConnectionManager::connect`, with the network outcome supplied by
`oracle callIdx`: on success stores the client and resets the attempt
counter to 0; on failure returns the error leaving the state unchanged. -/
def connect (oracle : Nat → Bool) (callIdx : Nat) (s : ConnState) :
    ConnState × Bool :=
  if oracle callIdx then
    ({ s with connected := true, reconnect_attempts := 0 }, true)
  else (s, false)

/-- The `while attempt < max_attempts` loop of `connect_with_retry`,
structured on the remaining iteration budget (`remaining = max - attempt` on
entry).  Returns the final state, success flag, and the backoff sleeps
performed, in order.  The backoff is `min(2_u64.pow(attempt), 60)`: the
`u64` power is modelled with its wrap-around `% 2^64` (release semantics —
from attempt 64 on the power wraps to 0, so the sleep is 0 seconds; a debug
build would panic on the overflow instead). -/
def retryGo (oracle : Nat → Bool) (maxAttempts : Nat) :
    Nat → Nat → ConnState → ConnState × Bool × List Nat
  | 0, _, s => (s, false, [])
  | remaining + 1, attempt, s =>
    match connect oracle attempt s with
    | (s1, true) => (s1, true, [])
    | (s1, false) =>
      let s2 := { s1 with reconnect_attempts := attempt + 1 }
      if maxAttempts ≤ attempt + 1 then (s2, false, [])
      else
        let backoff := min ((2 ^ (attempt + 1)) % (2 ^ 64)) 60
        match retryGo oracle maxAttempts remaining (attempt + 1) s2 with
        | (s3, ok, sleeps) => (s3, ok, backoff :: sleeps)

/-- `ConnectionManager::connect_with_retry(max_attempts)`. -/
def connect_with_retry (oracle : Nat → Bool) (maxAttempts : Nat)
    (s : ConnState) : ConnState × Bool × List Nat :=
  retryGo oracle maxAttempts maxAttempts 0 s

theorem retryGo_all_fail (oracle : Nat → Bool) (maxAttempts : Nat) :
    ∀ (remaining attempt : Nat) (s : ConnState),
      remaining + attempt = maxAttempts → attempt < maxAttempts →
      (∀ k, k < maxAttempts → oracle k = false) →
      retryGo oracle maxAttempts remaining attempt s =
        ({ s with reconnect_attempts := maxAttempts }, false,
          (List.range (maxAttempts - 1 - attempt)).map
            (fun a => min ((2 ^ (attempt + a + 1)) % (2 ^ 64)) 60)) := by
  intro remaining
  induction remaining with
  | zero => intro attempt s h1 h2 _; omega
  | succ r ih =>
    intro attempt s h1 h2 hfail
    rw [retryGo]
    rw [show connect oracle attempt s = (s, false) by
      unfold connect; rw [hfail attempt (by omega)]; rfl]
    dsimp only
    by_cases hdone : maxAttempts ≤ attempt + 1
    · rw [if_pos hdone]
      have hmax : attempt + 1 = maxAttempts := by omega
      have hrange : maxAttempts - 1 - attempt = 0 := by omega
      rw [hrange]
      simp [hmax]
    · rw [if_neg hdone]
      rw [ih (attempt + 1) _ (by omega) (by omega) hfail]
      have hrange : maxAttempts - 1 - attempt = (maxAttempts - 1 - (attempt + 1)) + 1 := by
        omega
      rw [hrange, List.range_succ_eq_map, List.map_cons, List.map_map]
      refine congrArg₂ Prod.mk rfl (congrArg₂ Prod.mk rfl
        (congrArg₂ List.cons ?_ ?_))
      · norm_num
      · refine List.map_congr_left fun a _ => ?_
        have he : attempt + 1 + a + 1 = attempt + (a + 1) + 1 := by omega
        simp [Function.comp_apply, Nat.succ_eq_add_one, he]

theorem retryGo_first_success (oracle : Nat → Bool) (maxAttempts : Nat) :
    ∀ (remaining attempt : Nat) (s : ConnState) (j : Nat),
      remaining + attempt = maxAttempts → attempt ≤ j → j < maxAttempts →
      oracle j = true → (∀ k, attempt ≤ k → k < j → oracle k = false) →
      (retryGo oracle maxAttempts remaining attempt s).2.1 = true ∧
        (retryGo oracle maxAttempts remaining attempt s).1.reconnect_attempts = 0 ∧
        (retryGo oracle maxAttempts remaining attempt s).1.connected = true := by
  intro remaining
  induction remaining with
  | zero => intro attempt s j h1 h2 h3 _ _; omega
  | succ r ih =>
    intro attempt s j h1 h2 h3 hj hfail
    rw [retryGo]
    by_cases heq : attempt = j
    · subst heq
      rw [show connect oracle attempt s =
          ({ s with connected := true, reconnect_attempts := 0 }, true) by
        unfold connect; rw [hj]; rfl]
      exact ⟨rfl, rfl, rfl⟩
    · have hlt : attempt < j := by omega
      rw [show connect oracle attempt s = (s, false) by
        unfold connect; rw [hfail attempt (by omega) hlt]; rfl]
      dsimp only
      rw [if_neg (by omega)]
      have := ih (attempt + 1)
        { s with reconnect_attempts := attempt + 1 } j (by omega) (by omega)
        h3 hj (fun k hk1 hk2 => hfail k (by omega) hk2)
      rcases hr : retryGo oracle maxAttempts r (attempt + 1)
          { s with reconnect_attempts := attempt + 1 } with ⟨s3, ok, sleeps⟩
      rw [hr] at this
      exact this

end ConnectionManager

/-- C6 (amended): for `max_attempts ≥ 1`, if every `connect()` call fails,
`connect_with_retry` returns the connection error with
`get_reconnect_attempts() == max_attempts`, having slept
`min(2^attempt mod 2^64, 60)` seconds — the `u64`-wrapped backoff, equal to
`min(2^attempt, 60)` for attempts up to 63 and 0 from attempt 64 on — after
each failed attempt except the last (attempt counted from 1); and if the
first success comes at some call `j < max_attempts`, it returns Ok with the
counter reset to 0 (and the client stored) by the inner `connect()`. -/
theorem connect_with_retry_spec (oracle : Nat → Bool) (maxAttempts : Nat)
    (s : ConnectionManager.ConnState) (hmax : 1 ≤ maxAttempts) :
    ((∀ k, k < maxAttempts → oracle k = false) →
      ConnectionManager.connect_with_retry oracle maxAttempts s =
        ({ s with reconnect_attempts := maxAttempts }, false,
          (List.range (maxAttempts - 1)).map
            (fun a => min ((2 ^ (a + 1)) % (2 ^ 64)) 60))) ∧
    (∀ j, j < maxAttempts → oracle j = true →
      (∀ k, k < j → oracle k = false) →
      (ConnectionManager.connect_with_retry oracle maxAttempts s).2.1 = true ∧
      (ConnectionManager.connect_with_retry oracle maxAttempts
        s).1.reconnect_attempts = 0) := by
  constructor
  · intro hfail
    unfold ConnectionManager.connect_with_retry
    rw [ConnectionManager.retryGo_all_fail oracle maxAttempts maxAttempts 0 s
      (by omega) (by omega) hfail]
    simp
  · intro j hj hjt hfirst
    have := ConnectionManager.retryGo_first_success oracle maxAttempts
      maxAttempts 0 s j (by omega) (by omega) hj hjt
      (fun k _ hk => hfirst k hk)
    exact ⟨this.1, this.2.1⟩

/-- The sleep schedule exactly as claim C6 words it: `min(2^attempt, 60)`
over unbounded integers, for attempts 1 .. max_attempts - 1. -/
def claimBackoffSchedule (maxAttempts : Nat) : List Nat :=
  (List.range (maxAttempts - 1)).map (fun a => min (2 ^ (a + 1)) 60)

/-- C6, counterexample: with `max_attempts = 65` and every `connect()` call
failing, the sleep after failed attempt 64 is 0 seconds — `2_u64.pow(64)`
wraps to 0 — while the claim's `min(2^64, 60)` formula demands 60 seconds,
so the claimed sleep schedule is false of the program. -/
theorem connect_retry_claim_cex :
    ((ConnectionManager.connect_with_retry (fun _ => false) 65 {}).2.2.get?
      63 = some 0) ∧
    ((claimBackoffSchedule 65).get? 63 = some 60) ∧
    (ConnectionManager.connect_with_retry (fun _ => false) 65 {}).2.2 ≠
      claimBackoffSchedule 65 := by
  have h := ConnectionManager.retryGo_all_fail (fun _ => false) 65 65 0 {}
    (by omega) (by omega) (fun k _ => rfl)
  have h1 : (ConnectionManager.connect_with_retry (fun _ => false) 65
      {}).2.2.get? 63 = some 0 := by
    unfold ConnectionManager.connect_with_retry
    rw [h]
    rw [show (65 : Nat) - 1 - 0 = 64 by omega]
    rw [List.get?_map, List.get?_range (by omega)]
    norm_num
  have h2 : (claimBackoffSchedule 65).get? 63 = some 60 := by
    unfold claimBackoffSchedule
    rw [show (65 : Nat) - 1 = 64 by omega]
    rw [List.get?_map, List.get?_range (by omega)]
    norm_num
  refine ⟨h1, h2, fun heq => ?_⟩
  rw [heq, h2] at h1
  cases h1

/-- Witness for C6: with an always-failing oracle and `max_attempts = 3` the
retry ends with 3 recorded attempts, a failure, and backoff sleeps of 2 and
4 seconds; with an oracle succeeding at the first call, it succeeds with the
counter reset to 0. -/
theorem connect_with_retry_spec_witness :
    ConnectionManager.connect_with_retry (fun _ => false) 3 {} =
      ({ reconnect_attempts := 3 }, false, [2, 4]) ∧
    (ConnectionManager.connect_with_retry (fun _ => true) 3 {}).2.1 = true ∧
    (ConnectionManager.connect_with_retry (fun _ => true) 3
      {}).1.reconnect_attempts = 0 := by
  refine ⟨?_, (connect_with_retry_spec (fun _ => true) 3 {} (by omega)).2 0
    (by omega) rfl (fun k hk => absurd hk (by omega))⟩
  have h := (connect_with_retry_spec (fun _ => false) 3 {} (by omega)).1
    (fun k _ => rfl)
  rw [h]
  rfl

/-! ## Alerts and engine orchestration
(`src/packages/monitoring-engine/src/types.rs`, `alerts/mod.rs`,
`lib.rs`) -/

/-- The `Alert` struct (id and timestamp are produced by `uuid`/system time
in the source; the engine model below fills fixed placeholder values since no
claim constrains them). -/
structure Alert where
  id : String
  timestamp : Nat
  chain : String
  severity : AlertSeverity
  pattern : AttackPattern
  description : String
  transaction_hash : Option String
  block_number : Option Nat
  metadata : List (String × String)
  recommended_actions : List String
  acknowledged : Bool
  deriving DecidableEq, Repr

/-- The `Display` string of an attack pattern (`types.rs`; the five variants
absent from the snapshot's declaration are modelled from the spec's
names). -/
def AttackPattern.display : AttackPattern → String
  | .FlashLoan => "Flash Loan"
  | .Mev => "MEV"
  | .FrontRunning => "Front Running"
  | .Sandwich => "Sandwich Attack"
  | .OracleManipulation => "Oracle Manipulation"
  | .GovernanceAttack => "Governance Attack"
  | .Reentrancy => "Reentrancy"
  | .VolumeAnomaly => "Volume Anomaly"
  | .SuspiciousApproval => "Suspicious Approval"
  | .CrossChainBridge => "Cross-Chain Bridge"
  | .StateProofManipulation => "State Proof Manipulation"
  | .OmnipoolManipulation => "Omnipool Manipulation"
  | .LiquidityDrain => "Liquidity Drain"
  | .CollateralManipulation => "Collateral Manipulation"
  | .Unknown => "Unknown"

namespace MonitoringEngine

/-- The severity derivation of `process_transaction` (`lib.rs`): fixed
confidence thresholds. -/
def severityFromConfidence (c : ℚ) : AlertSeverity :=
  if c ≥ 9/10 then .Critical
  else if c ≥ 75/100 then .High
  else if c ≥ 6/10 then .Medium
  else .Low

/-- A detector as the engine sees it: the trait object's single-transaction
entry point.  `process_transaction` never calls `analyze_batch`, so the
engine model needs only this method. -/
structure Detector where
  name : String
  analyze_transaction : TransactionContext → DetectionResult

/-- The `TransactionContext` `process_transaction` constructs: the bare
transaction with **no** events and **no** state changes ("simplified - no
events/state changes for now"). -/
def processContext (tx : ParsedTransaction) : TransactionContext :=
  { transaction := tx, events := [], state_changes := [] }

/-- The `Alert` built by `process_transaction` for an above-threshold
detection. -/
def mkAlert (chain_name : String) (tx : ParsedTransaction)
    (r : DetectionResult) : Alert :=
  { id := ""
    timestamp := 0
    chain := chain_name
    severity := severityFromConfidence r.confidence
    pattern := r.pattern
    description := r.description
    transaction_hash := some tx.hash
    block_number := some tx.block_number
    metadata := []
    recommended_actions :=
      if r.evidence ≠ [] then
        ["Review transaction details and evidence",
         "Investigate pattern: " ++ r.pattern.display,
         "Monitor related transactions from same sender"]
      else ["Review transaction for suspicious activity"]
    acknowledged := false }

/-- `MonitoringEngine::process_transaction`: builds the event-free context,
runs every detector through `analyze_transaction`, and emits an alert for
each result with `detected && confidence > 0.5`, its severity derived from
the confidence. -/
def process_transaction (chain_name : String) (detectors : List Detector)
    (tx : ParsedTransaction) : List DetectionResult × List Alert :=
  let results := detectors.map (fun d => d.analyze_transaction (processContext tx))
  (results, results.filterMap (fun r =>
    if r.detected = true ∧ r.confidence > 1/2 then
      some (mkAlert chain_name tx r)
    else none))

end MonitoringEngine

/-- C7: `AlertSeverity` is totally ordered `Low < Medium < High < Critical`
(the derived order), and every alert the engine produces (from a detection
with `detected` and confidence above 0.5) carries the severity given by the
fixed thresholds: `Critical` at ≥ 0.9, else `High` at ≥ 0.75, else `Medium`
at ≥ 0.6, else `Low`. -/
theorem engine_severity_spec :
    (AlertSeverity.sevLt .Low .Medium ∧ AlertSeverity.sevLt .Medium .High ∧
      AlertSeverity.sevLt .High .Critical ∧
      (∀ a b : AlertSeverity,
        AlertSeverity.sevLt a b ∨ a = b ∨ AlertSeverity.sevLt b a) ∧
      (∀ a b : AlertSeverity,
        AlertSeverity.sevLt a b → ¬AlertSeverity.sevLt b a)) ∧
    (∀ (chain : String) (detectors : List MonitoringEngine.Detector)
        (tx : ParsedTransaction) (alert : Alert),
      alert ∈ (MonitoringEngine.process_transaction chain detectors tx).2 →
      ∃ r ∈ (MonitoringEngine.process_transaction chain detectors tx).1,
        r.detected = true ∧ r.confidence > 1/2 ∧
        alert.severity =
          (if r.confidence ≥ 9/10 then .Critical
           else if r.confidence ≥ 75/100 then .High
           else if r.confidence ≥ 6/10 then .Medium
           else .Low)) := by
  constructor
  · refine ⟨by decide, by decide, by decide, ?_, ?_⟩
    · intro a b
      rcases Nat.lt_trichotomy a.rank b.rank with h | h | h
      · exact Or.inl h
      · refine Or.inr (Or.inl ?_)
        cases a <;> cases b <;> first | rfl | (exfalso; revert h; decide)
      · exact Or.inr (Or.inr h)
    · intro a b h1 h2
      exact absurd (Nat.lt_trans h1 h2) (Nat.lt_irrefl _)
  · intro chain detectors tx alert halert
    unfold MonitoringEngine.process_transaction at halert ⊢
    obtain ⟨r, hr, hcond⟩ := List.mem_filterMap.mp halert
    by_cases hc : r.detected = true ∧ r.confidence > 1/2
    · rw [if_pos hc] at hcond
      refine ⟨r, hr, hc.1, hc.2, ?_⟩
      rw [← Option.some.inj hcond]
      rfl
    · rw [if_neg hc] at hcond
      cases hcond

/-- A detector constant at confidence 0.8 (pattern `FlashLoan`). -/
def constDetector : MonitoringEngine.Detector :=
  { name := "const"
    analyze_transaction := fun _ =>
      DetectionResult.found .FlashLoan (8/10) "const detection" ["e"] }

/-- The transaction fed to the engine witnesses. -/
def txEngineW : ParsedTransaction :=
  { hash := "0xew", block_number := 42, block_hash := "0xb", index := 0,
    caller := "E", pallet := "p", call := "c" }

/-- Witness for C7: the 0.8-confidence detection yields an alert whose
severity matches the threshold chain (here `High`). -/
theorem engine_severity_spec_witness :
    ∃ r ∈ (MonitoringEngine.process_transaction "chainW" [constDetector]
        txEngineW).1,
      r.detected = true ∧ r.confidence > 1/2 ∧
      (MonitoringEngine.mkAlert "chainW" txEngineW
          (DetectionResult.found .FlashLoan (8/10) "const detection"
            ["e"])).severity =
        (if r.confidence ≥ 9/10 then .Critical
         else if r.confidence ≥ 75/100 then .High
         else if r.confidence ≥ 6/10 then .Medium
         else .Low) := by
  refine engine_severity_spec.2 "chainW" [constDetector] txEngineW _ ?_
  unfold MonitoringEngine.process_transaction
  simp only [List.map_cons, List.map_nil, List.filterMap_cons,
    List.filterMap_nil]
  rw [if_pos (by constructor <;> norm_num [constDetector, DetectionResult.found])]
  simp [constDetector]

/-- C10: every context `process_transaction` hands to a detector is the bare
transaction with empty events and empty state changes, and the engine's
per-transaction results are exactly the element-wise `analyze_transaction`
calls on that single event-free context — `analyze_batch` is never
invoked. -/
theorem engine_context_shape (chain : String)
    (detectors : List MonitoringEngine.Detector) (tx : ParsedTransaction) :
    (MonitoringEngine.processContext tx).events = [] ∧
      (MonitoringEngine.processContext tx).state_changes = [] ∧
      (MonitoringEngine.processContext tx).transaction = tx ∧
      (MonitoringEngine.process_transaction chain detectors tx).1 =
        detectors.map
          (fun d => d.analyze_transaction (MonitoringEngine.processContext tx)) :=
  ⟨rfl, rfl, rfl, rfl⟩

/-! ## AlertManager (`src/packages/monitoring-engine/src/alerts/mod.rs`) -/

namespace AlertManager

/-- The manager's state: configured minimum severity, optional webhook URL
(webhook dispatch is fire-and-forget and does not affect the history), and
the in-memory history. -/
structure Manager where
  min_severity : AlertSeverity
  webhook_url : Option String := none
  alert_history : List Alert := []
  deriving DecidableEq, Repr

/-- `AlertManager::trigger_alert`: drop silently below the minimum severity,
otherwise append to the history. -/
def trigger_alert (m : Manager) (alert : Alert) : Manager :=
  if alert.severity.sevLt m.min_severity then m
  else { m with alert_history := m.alert_history ++ [alert] }

/-- `AlertManager::get_recent_alerts`: most recent first, up to `limit`. -/
def get_recent_alerts (m : Manager) (limit : Nat) : List Alert :=
  m.alert_history.reverse.take limit

/-- `AlertManager::clear_history`. -/
def clear_history (m : Manager) : Manager :=
  { m with alert_history := [] }

end AlertManager

/-- C9: an alert strictly below the configured minimum severity is dropped —
the history is unchanged and (if not already present) it never appears in
`get_recent_alerts`; an alert at or above the minimum is appended and
appears in `get_recent_alerts` for any positive limit; `clear_history`
leaves the history empty. -/
theorem alert_manager_spec :
    (∀ (m : AlertManager.Manager) (a : Alert),
      a.severity.sevLt m.min_severity →
      (AlertManager.trigger_alert m a).alert_history = m.alert_history ∧
      (a ∉ m.alert_history → ∀ limit,
        a ∉ AlertManager.get_recent_alerts (AlertManager.trigger_alert m a)
          limit)) ∧
    (∀ (m : AlertManager.Manager) (a : Alert),
      ¬a.severity.sevLt m.min_severity →
      (AlertManager.trigger_alert m a).alert_history =
        m.alert_history ++ [a] ∧
      (∀ limit, 1 ≤ limit →
        a ∈ AlertManager.get_recent_alerts (AlertManager.trigger_alert m a)
          limit)) ∧
    (∀ m : AlertManager.Manager,
      (AlertManager.clear_history m).alert_history = []) := by
  refine ⟨?_, ?_, fun m => rfl⟩
  · intro m a h
    have hsame : AlertManager.trigger_alert m a = m := by
      unfold AlertManager.trigger_alert
      rw [if_pos h]
    refine ⟨by rw [hsame], fun hnot limit hmem => ?_⟩
    rw [hsame] at hmem
    unfold AlertManager.get_recent_alerts at hmem
    exact hnot (by simpa using List.mem_reverse.mp (List.mem_of_mem_take hmem))
  · intro m a h
    have happ : (AlertManager.trigger_alert m a).alert_history =
        m.alert_history ++ [a] := by
      unfold AlertManager.trigger_alert
      rw [if_neg h]
    refine ⟨happ, fun limit hlim => ?_⟩
    unfold AlertManager.get_recent_alerts
    rw [happ, List.reverse_append]
    cases limit with
    | zero => omega
    | succ n => simp

/-- A concrete low-severity alert used by the C9 witness. -/
def alertLowW : Alert :=
  { id := "low", timestamp := 1, chain := "c", severity := .Low,
    pattern := .VolumeAnomaly, description := "d", transaction_hash := none,
    block_number := none, metadata := [], recommended_actions := [],
    acknowledged := false }

/-- A concrete high-severity alert used by the C9 witness. -/
def alertHighW : Alert :=
  { id := "high", timestamp := 2, chain := "c", severity := .High,
    pattern := .FlashLoan, description := "d", transaction_hash := none,
    block_number := none, metadata := [], recommended_actions := [],
    acknowledged := false }

/-- The manager configured at minimum severity `Medium` with empty
history. -/
def mgrW : AlertManager.Manager :=
  { min_severity := .Medium }

/-- Witness for C9: on the `Medium`-floor manager, the `Low` alert never
appears in `get_recent_alerts` while the `High` alert does. -/
theorem alert_manager_spec_witness :
    (alertLowW ∉ AlertManager.get_recent_alerts
      (AlertManager.trigger_alert mgrW alertLowW) 10) ∧
    (alertHighW ∈ AlertManager.get_recent_alerts
      (AlertManager.trigger_alert mgrW alertHighW) 10) :=
  ⟨(alert_manager_spec.1 mgrW alertLowW (by decide)).2 (by decide) 10,
   (alert_manager_spec.2.1 mgrW alertHighW (by decide)).2 10 (by omega)⟩

/-- C8: the `AttackPattern` enumeration declared in the snapshot's
`types.rs` has exactly ten variants, not the claimed fifteen: it omits the
`CrossChainBridge`, `StateProofManipulation`, `OmnipoolManipulation`,
`LiquidityDrain` and `CollateralManipulation` variants that the detector
implementations construct, so the declaration cannot be put in bijection
with the fifteen-variant enumeration the callers (and the spec) require. -/
theorem attack_pattern_decl_mismatch :
    Fintype.card AttackPatternDecl = 10 ∧
      Fintype.card AttackPattern = 15 ∧
      ¬Nonempty (AttackPatternDecl ≃ AttackPattern) := by
  refine ⟨by decide, by decide, fun ⟨e⟩ => ?_⟩
  have h := Fintype.card_congr e
  rw [show Fintype.card AttackPatternDecl = 10 by decide,
    show Fintype.card AttackPattern = 15 by decide] at h
  omega

end SecurityNexus
